import Mathlib

/-!
# Verification of the Bazaar world-tick and market engine

Shallow embedding of the TypeScript sources of the `babel.market` repository
(`src/engine/tick.ts`, `src/engine/actions.ts`, the cult/ritual/war handlers,
`src/utils/math.ts`, `src/utils/agent-lookup.ts`) together with proofs about
the frozen claims.

Modelling conventions:
* JavaScript `number` arithmetic is modelled as exact rational arithmetic
  (`ℚ`).  All monetary values flow through `Number.prototype.toFixed`, which
  rounds to 2 (money) or 4 (quantity) decimal digits; `toFixed` is modelled by
  `roundTo`, decimal rounding to the nearest multiple of `10^-d` picking the
  larger value on ties (the ECMAScript rule "if there are two such n, pick the
  larger n").  Binary double rounding (relative error `2^-53`) is far below
  the cent scale every claim is stated at and is not modelled.
* Database tables are lists of rows; `findFirst` is `List.find?`, `update`
  maps the matched rows (SQL `UPDATE` touches every matching row and inserts
  nothing), `delete` filters them out, `insert` appends.
* `uuid` keys are modelled as `Nat`, timestamps as `Int` milliseconds.
* Row metadata columns that no code reads (`createdAt`, `description` texts,
  the `trades` / `audit_log` tables, jsonb `effects` payloads) are omitted.
* Randomness (`Math.random` driven helpers) is passed in explicitly as oracle
  data: each random draw of a code path becomes a parameter.
-/

/-- JS `Number.prototype.toFixed d`: round to the nearest multiple of `10^-d`,
ties to the larger value (the ECMAScript "pick the larger n" rule). -/
def roundTo (d : Nat) (x : ℚ) : ℚ :=
  (⌊x * (10 : ℚ) ^ d + 1 / 2⌋ : ℤ) / (10 : ℚ) ^ d

/-- Model of `addDecimals` from `src/utils/math.ts`: `(parseFloat a + parseFloat b).toFixed(2)`. -/
def addDecimals (a b : ℚ) : ℚ := roundTo 2 (a + b)

/-- Model of `subtractDecimals` from `src/utils/math.ts`. -/
def subtractDecimals (a b : ℚ) : ℚ := roundTo 2 (a - b)

/-- Model of `multiplyDecimals` from `src/utils/math.ts`. -/
def multiplyDecimals (a b : ℚ) : ℚ := roundTo 2 (a * b)

/-- Model of `compareDecimals` from `src/utils/math.ts`: sign of `parseFloat a - parseFloat b`. -/
def compareDecimals (a b : ℚ) : Int :=
  if a - b > 0 then 1 else if a - b < 0 then -1 else 0

/-- Model of `formatDecimal` from `src/utils/math.ts` (default 2 decimals at call sites
that pass none). -/
def formatDecimal (x : ℚ) (d : Nat := 2) : ℚ := roundTo d x

/-! ## Data model (`src/db/schema.ts`) -/

/-- Row of the `agents` table. -/
structure Agent where
  id : Nat
  name : String
  babelCoins : ℚ
  reputation : Int
  location : String
  cultId : Option Nat
  jailedUntil : Option Int
  lastActionAt : Int
deriving Repr, DecidableEq

/-- Row of the `commodities` table. -/
structure Commodity where
  name : String
  displayName : String
  basePrice : ℚ
  currentPrice : ℚ
  supply : ℚ
  volatility : ℚ
  decayRate : ℚ
  isPerishable : Bool
  createdByCult : Option Nat
deriving Repr, DecidableEq

/-- Row of the `inventories` table (composite key `(agentId, commodity)`). -/
structure InvEntry where
  agentId : Nat
  commodity : String
  quantity : ℚ
  isCounterfeit : Bool
deriving Repr, DecidableEq

/-- Row of the `cults` table. -/
structure Cult where
  id : Nat
  name : String
  founderId : Nat
  treasury : ℚ
  influence : Int
  titheRate : ℚ
  memberCount : Int
  isAtWarWith : Option Nat
deriving Repr, DecidableEq

/-- Row of the `cult_members` table. -/
structure CultMember where
  cultId : Nat
  agentId : Nat
  role : String
deriving Repr, DecidableEq

/-- Row of the `rituals` table. -/
structure Ritual where
  id : Nat
  cultId : Nat
  ritualType : String
  target : Option String
  participants : List Nat
  requiredParticipants : Nat
  status : String
  expiresAt : Int
deriving Repr, DecidableEq

/-- Row of the append-only `world_events` table (description text and jsonb
effects payload are not modelled; no code reads them back). -/
structure WorldEventRec where
  eventType : String
  tickNumber : Int
deriving Repr, DecidableEq

/-- The jsonb `value` column of `world_state`. -/
inductive WSValue where
  | num (n : Int)
  | ruling (cultId : Nat) (name : String) (influence : Int)
  | null
deriving Repr, DecidableEq

/-- Row of the `world_state` key-value table. -/
structure WSRow where
  key : String
  value : WSValue
  updatedAt : Int
deriving Repr, DecidableEq

/-- The database: one list per table (the `trades` and `audit_log` tables are
write-only logs no claim mentions and are omitted). -/
structure DB where
  agents : List Agent
  commodities : List Commodity
  inventories : List InvEntry
  cults : List Cult
  cultMembers : List CultMember
  rituals : List Ritual
  worldEvents : List WorldEventRec
  worldState : List WSRow
deriving Repr, DecidableEq

/-- SQL `UPDATE … SET f WHERE p`: map the matched rows, keep the rest. -/
def updBy (p : α → Bool) (f : α → α) (l : List α) : List α :=
  l.map fun a => if p a then f a else a

/-- SQL `DELETE … WHERE p`. -/
def delBy (p : α → Bool) (l : List α) : List α :=
  l.filter fun a => !(p a)

/-- Model of `randomChoice` from `src/utils/math.ts`: `array[floor(random()*len)]`;
the random draw is supplied as an index `i` (reduced mod the length). -/
def randomChoice (l : List α) (i : Nat) [Inhabited α] : α :=
  l.getD (i % l.length) default

/-- Constants from `src/data/initial-world.ts`. -/
def TICK_INTERVAL_MS : Int := 5 * 60 * 1000

def JAIL_DURATION_TICKS : Int := 3

def RITUAL_EXPIRY_TICKS : Int := 5

def ORACLE_COST : ℚ := 25

def STEAL_SUCCESS_RATE : ℚ := 1 / 2

/-- Model of `ActionResult` from `src/types/index.ts` (the free-form `data` payload is
not modelled). -/
structure ActionResult where
  success : Bool
  message : String
deriving Repr, DecidableEq

instance : Inhabited Agent := ⟨⟨0, "", 0, 0, "", none, none, 0⟩⟩
instance : Inhabited Commodity := ⟨⟨"", "", 0, 0, 0, 0, 0, false, none⟩⟩
instance : Inhabited InvEntry := ⟨⟨0, "", 0, false⟩⟩

/-- JS `s.includes(t)` (substring test), via `String.splitOn`. -/
def strIncludes (s t : String) : Bool :=
  t.isEmpty || (s.splitOn t).length > 1

/-- Model of `findCommodity` from `src/utils/agent-lookup.ts`: exact slug, then
lower-cased slug, then display name (case-insensitive), then fuzzy substring
match.  (The JS slugification collapses whitespace runs with a regex; here a
single-space replace, which agrees on all sane inputs.) -/
def findCommodity (db : DB) (input : String) : Option Commodity :=
  if input.isEmpty then none
  else match db.commodities.find? (fun c => c.name == input) with
  | some exact => some exact
  | none =>
    let lowerSlug := (input.toLower).replace " " "_"
    match db.commodities.find? (fun c => c.name == lowerSlug) with
    | some bySlug => some bySlug
    | none =>
      match db.commodities.find? (fun c => c.displayName.toLower == input.toLower) with
      | some byDisplayName => some byDisplayName
      | none =>
        db.commodities.find? fun c =>
          strIncludes c.name lowerSlug || strIncludes (c.displayName.toLower) (input.toLower)

/-- Result of `getAgentOrFail` from `src/engine/actions.ts`. -/
inductive AgentCheck where
  | err (r : ActionResult)
  | ok (agent : Agent)
deriving Repr, DecidableEq

/-- Is the jail sentence of the agent still running at time `now`? -/
def isJailed (a : Agent) (now : Int) : Bool :=
  match a.jailedUntil with
  | some t => now < t
  | none => false

/-- Model of `getAgentOrFail` from `src/engine/actions.ts`: look the agent up and
reject jailed agents before anything else. -/
def getAgentOrFail (db : DB) (now : Int) (agentId : Nat) : AgentCheck :=
  match db.agents.find? (fun a => a.id == agentId) with
  | none => .err ⟨false, "Agent not found"⟩
  | some agent =>
    if isJailed agent now then
      .err ⟨false, "You are in Bazaar Jail!"⟩
    else
      .ok agent

/-! ## Table-update helpers

Thin wrappers for the drizzle calls `db.update(t).set(f).where(p)`,
`db.delete(t).where(p)` and `db.insert(t).values(v)`. -/

def updAgents (db : DB) (p : Agent → Bool) (f : Agent → Agent) : DB :=
  { db with agents := updBy p f db.agents }

def updComms (db : DB) (p : Commodity → Bool) (f : Commodity → Commodity) : DB :=
  { db with commodities := updBy p f db.commodities }

def addComm (db : DB) (c : Commodity) : DB :=
  { db with commodities := db.commodities ++ [c] }

def updInvs (db : DB) (p : InvEntry → Bool) (f : InvEntry → InvEntry) : DB :=
  { db with inventories := updBy p f db.inventories }

def delInvs (db : DB) (p : InvEntry → Bool) : DB :=
  { db with inventories := delBy p db.inventories }

def addInv (db : DB) (i : InvEntry) : DB :=
  { db with inventories := db.inventories ++ [i] }

def updCults (db : DB) (p : Cult → Bool) (f : Cult → Cult) : DB :=
  { db with cults := updBy p f db.cults }

def delCults (db : DB) (p : Cult → Bool) : DB :=
  { db with cults := delBy p db.cults }

def delMembers (db : DB) (p : CultMember → Bool) : DB :=
  { db with cultMembers := delBy p db.cultMembers }

def updRituals (db : DB) (p : Ritual → Bool) (f : Ritual → Ritual) : DB :=
  { db with rituals := updBy p f db.rituals }

def addRitual (db : DB) (r : Ritual) : DB :=
  { db with rituals := db.rituals ++ [r] }

def addEventRec (db : DB) (e : WorldEventRec) : DB :=
  { db with worldEvents := db.worldEvents ++ [e] }

def updWS (db : DB) (p : WSRow → Bool) (f : WSRow → WSRow) : DB :=
  { db with worldState := updBy p f db.worldState }

/-! ## Player action handlers (`src/engine/actions.ts`)

Each handler takes the database, the wall-clock time `now` (ms) and the
id of the caller; random draws of the source (`Math.random()` and helpers) are
explicit oracle parameters.  Handlers return the `ActionResult` and the
post-state. -/

def validLocations : List String :=
  ["grand_atrium", "whispering_corridor", "shady_alley", "cult_quarter",
   "oracles_alcove", "paradox_pit"]

/-- Model of `handleMove`. -/
def handleMove (db : DB) (now : Int) (agentId : Nat) (location : String) :
    ActionResult × DB :=
  match getAgentOrFail db now agentId with
  | .err e => (e, db)
  | .ok agent =>
    if !(validLocations.contains location) then
      (⟨false, "Unknown location"⟩, db)
    else if agent.location == location then
      (⟨false, "You are already there."⟩, db)
    else
      (⟨true, "Moved"⟩,
        updAgents db (fun a => a.id == agentId)
          (fun a => { a with location := location, lastActionAt := now }))

/-- Model of `handleBuy`; `quantity` is the caller-resolved `params.quantity || 1`. -/
def handleBuy (db : DB) (now : Int) (agentId : Nat) (commodityName : String)
    (quantity : ℚ) : ActionResult × DB :=
  match getAgentOrFail db now agentId with
  | .err e => (e, db)
  | .ok agent =>
    match findCommodity db commodityName with
    | none => (⟨false, "Commodity not found"⟩, db)
    | some commodity =>
      let slug := commodity.name
      let multiplier : ℚ := if agent.location == "paradox_pit" then 2 else 1
      let pricePerUnit := commodity.currentPrice
      let totalCost := pricePerUnit * quantity * multiplier
      if compareDecimals agent.babelCoins totalCost < 0 then
        (⟨false, "Insufficient Babel Coins"⟩, db)
      else
        let newBalance := subtractDecimals agent.babelCoins totalCost
        let db1 := updAgents db (fun a => a.id == agentId)
          (fun a => { a with babelCoins := newBalance, lastActionAt := now })
        let db2 :=
          match db1.inventories.find? (fun i => i.agentId == agentId && i.commodity == slug) with
          | some existing =>
            updInvs db1 (fun i => i.agentId == agentId && i.commodity == slug)
              (fun i => { i with quantity := addDecimals existing.quantity quantity })
          | none =>
            addInv db1 ⟨agentId, slug, formatDecimal quantity 4, false⟩
        let newSupply := addDecimals commodity.supply quantity
        let priceChange := pricePerUnit * 0.02 * quantity
        let newPrice := formatDecimal (pricePerUnit + priceChange)
        (⟨true, "Bought"⟩,
          updComms db2 (fun c => c.name == slug)
            (fun c => { c with supply := newSupply, currentPrice := newPrice }))

/-- Model of `handleSell`; `quantity` is the caller-resolved `params.quantity || 1`. -/
def handleSell (db : DB) (now : Int) (agentId : Nat) (commodityName : String)
    (quantity : ℚ) : ActionResult × DB :=
  match getAgentOrFail db now agentId with
  | .err e => (e, db)
  | .ok agent =>
    match findCommodity db commodityName with
    | none => (⟨false, "Commodity not found"⟩, db)
    | some commodity =>
      let slug := commodity.name
      match db.inventories.find? (fun i => i.agentId == agentId && i.commodity == slug) with
      | none => (⟨false, "Insufficient stock"⟩, db)
      | some inv =>
        if compareDecimals inv.quantity quantity < 0 then
          (⟨false, "Insufficient stock"⟩, db)
        else
          let multiplier : ℚ := if agent.location == "paradox_pit" then 2 else 1
          let sellPenalty : ℚ := 0.95
          let sellPrice := commodity.currentPrice * quantity * sellPenalty * multiplier
          let effectivePrice := if inv.isCounterfeit then sellPrice * 0.5 else sellPrice
          let newQty := subtractDecimals inv.quantity quantity
          let db1 :=
            if newQty ≤ 0 then
              delInvs db (fun i => i.agentId == agentId && i.commodity == slug)
            else
              updInvs db (fun i => i.agentId == agentId && i.commodity == slug)
                (fun i => { i with quantity := newQty })
          let newBalance := addDecimals agent.babelCoins effectivePrice
          let db2 := updAgents db1 (fun a => a.id == agentId)
            (fun a => { a with babelCoins := newBalance, lastActionAt := now })
          let pricePerUnit := commodity.currentPrice
          let priceChange := pricePerUnit * 0.02 * quantity
          let newPrice := formatDecimal
            (max (pricePerUnit - priceChange) (commodity.basePrice * 0.1))
          (⟨true, "Sold"⟩,
            updComms db2 (fun c => c.name == slug)
              (fun c => { c with supply := subtractDecimals c.supply quantity,
                                 currentPrice := newPrice }))

/-- Model of `CRAFT_RECIPES` as `(output, input1, input2, outputQty)`. -/
def CRAFT_RECIPES : List (String × String × String × ℚ) :=
  [("existential_dread", "bottled_regret", "silence", 1),
   ("conspiracy", "damp_secret", "unsolicited_advice", 1),
   ("deja_vu", "yesterdays_tomorrow", "paradox", 1),
   ("good_vibes_only", "vibes", "silence", 2),
   ("complete_handshake", "half_handshake", "half_handshake", 1),
   ("self_fulfilling_prophecy", "prophecy", "unsolicited_advice", 1)]

/-- Model of `handleCraft` (the display-name prettifying of a freshly inserted output
commodity is not modelled: nothing reads it back). -/
def handleCraft (db : DB) (now : Int) (agentId : Nat) (p1 p2 : String) :
    ActionResult × DB :=
  match getAgentOrFail db now agentId with
  | .err e => (e, db)
  | .ok _agent =>
    let item1 := match findCommodity db p1 with
      | some c => c.name
      | none => (p1.toLower).replace " " "_"
    let item2 := match findCommodity db p2 with
      | some c => c.name
      | none => (p2.toLower).replace " " "_"
    match CRAFT_RECIPES.find? (fun r =>
        (r.2.1 == item1 && r.2.2.1 == item2) || (r.2.1 == item2 && r.2.2.1 == item1)) with
    | none => (⟨false, "No recipe found"⟩, db)
    | some recipe =>
      let outputName := recipe.1
      let outputQty := recipe.2.2.2
      let inv1? := db.inventories.find? (fun i => i.agentId == agentId && i.commodity == item1)
      let inv2? := db.inventories.find? (fun i => i.agentId == agentId && i.commodity == item2)
      match inv1?, inv2? with
      | none, _ => (⟨false, "Need at least 1 of the first input"⟩, db)
      | some _, none => (⟨false, "Need the second input"⟩, db)
      | some inv1, some inv2 =>
        if inv1.quantity < 1 then (⟨false, "Need at least 1 of the first input"⟩, db)
        else if inv2.quantity < (if item1 == item2 then (2 : ℚ) else 1) then
          (⟨false, "Need the second input"⟩, db)
        else
          let newQty1 := subtractDecimals inv1.quantity 1
          let db1 :=
            if newQty1 ≤ 0 then
              delInvs db (fun i => i.agentId == agentId && i.commodity == item1)
            else
              updInvs db (fun i => i.agentId == agentId && i.commodity == item1)
                (fun i => { i with quantity := newQty1 })
          let db2 :=
            if item1 != item2 then
              let newQty2 := subtractDecimals inv2.quantity 1
              if newQty2 ≤ 0 then
                delInvs db1 (fun i => i.agentId == agentId && i.commodity == item2)
              else
                updInvs db1 (fun i => i.agentId == agentId && i.commodity == item2)
                  (fun i => { i with quantity := newQty2 })
            else
              let currentQty := subtractDecimals inv1.quantity 2
              if currentQty ≤ 0 then
                delInvs db1 (fun i => i.agentId == agentId && i.commodity == item1)
              else
                updInvs db1 (fun i => i.agentId == agentId && i.commodity == item1)
                  (fun i => { i with quantity := currentQty })
          let db3 :=
            if (db2.commodities.find? (fun c => c.name == outputName)).isNone then
              addComm db2 ⟨outputName, outputName, 30, 30, 0, 2, 0, false, none⟩
            else db2
          let db4 :=
            match db3.inventories.find?
                (fun i => i.agentId == agentId && i.commodity == outputName) with
            | some existingOutput =>
              updInvs db3 (fun i => i.agentId == agentId && i.commodity == outputName)
                (fun i => { i with quantity := addDecimals existingOutput.quantity outputQty })
            | none =>
              addInv db3 ⟨agentId, outputName, outputQty, false⟩
          (⟨true, "Crafted"⟩,
            updAgents db4 (fun a => a.id == agentId) (fun a => { a with lastActionAt := now }))

/-- Model of `handleExplore`.  Oracle data: `roll` is the top-level `Math.random()`
draw, `foundIdx` the `randomChoice` index, `qty` the
`Math.ceil(randomBetween(1,3))` result and `coins` the raw
`randomBetween(5,25)` draw. -/
def handleExplore (db : DB) (now : Int) (agentId : Nat) (roll : ℚ)
    (foundIdx : Nat) (qty : ℚ) (coins : ℚ) : ActionResult × DB :=
  match getAgentOrFail db now agentId with
  | .err e => (e, db)
  | .ok agent =>
    let db1 :=
      if roll < 0.4 then
        let found := randomChoice db.commodities foundIdx
        match db.inventories.find?
            (fun i => i.agentId == agentId && i.commodity == found.name) with
        | some existing =>
          updInvs db (fun i => i.agentId == agentId && i.commodity == found.name)
            (fun i => { i with quantity := addDecimals existing.quantity qty })
        | none =>
          addInv db ⟨agentId, found.name, qty, false⟩
      else if roll < 0.65 then
        let coinsF := formatDecimal coins
        let newBalance := addDecimals agent.babelCoins coinsF
        updAgents db (fun a => a.id == agentId) (fun a => { a with babelCoins := newBalance })
      else
        db
    (⟨true, "Explored"⟩,
      updAgents db1 (fun a => a.id == agentId) (fun a => { a with lastActionAt := now }))

/-- Model of `handleRumor`; `dirUp` is `params.direction === up`. -/
def handleRumor (db : DB) (now : Int) (agentId : Nat) (commodityName : String)
    (dirUp : Bool) : ActionResult × DB :=
  match getAgentOrFail db now agentId with
  | .err e => (e, db)
  | .ok agent =>
    match findCommodity db commodityName with
    | none => (⟨false, "Commodity not found"⟩, db)
    | some commodity =>
      let slug := commodity.name
      let effectiveness : Int := if agent.location == "whispering_corridor" then 2 else 1
      let priceImpact := commodity.volatility * 0.05 * (effectiveness : ℚ)
      let currentPrice := commodity.currentPrice
      let newPrice :=
        if dirUp then currentPrice * (1 + priceImpact)
        else max (currentPrice * (1 - priceImpact)) (commodity.basePrice * 0.1)
      let db1 := updComms db (fun c => c.name == slug)
        (fun c => { c with currentPrice := formatDecimal newPrice })
      (⟨true, "Rumor spread"⟩,
        updAgents db1 (fun a => a.id == agentId)
          (fun a => { a with reputation := agent.reputation + effectiveness,
                             lastActionAt := now }))

/-- Model of `handleSteal`.  Oracle data: `caughtRoll` is the `randomChance` outcome,
`itemIdx` the `randomChoice` index into the inventory of the target,
`ceilQty` the `Math.ceil(randomBetween(1,3))` draw. -/
def handleSteal (db : DB) (now : Int) (agentId : Nat) (targetName : String)
    (stealRoll : Bool) (itemIdx : Nat) (ceilQty : ℚ) : ActionResult × DB :=
  match getAgentOrFail db now agentId with
  | .err e => (e, db)
  | .ok agent =>
    if agent.location != "shady_alley" then
      (⟨false, "Stealing only works in the Shady Alley."⟩, db)
    else
      match db.agents.find? (fun a => a.name == targetName) with
      | none => (⟨false, "Target agent not found"⟩, db)
      | some target =>
        if target.id == agentId then (⟨false, "You cannot steal from yourself."⟩, db)
        else
          let targetInventory := db.inventories.filter (fun i => i.agentId == target.id)
          if targetInventory.isEmpty then
            (⟨false, "Nothing to steal"⟩, db)
          else if stealRoll then
            let stolenItem := randomChoice targetInventory itemIdx
            let stolenQty := min stolenItem.quantity ceilQty
            let newTargetQty := subtractDecimals stolenItem.quantity stolenQty
            let db1 :=
              if newTargetQty ≤ 0 then
                delInvs db (fun i => i.agentId == target.id && i.commodity == stolenItem.commodity)
              else
                updInvs db (fun i => i.agentId == target.id && i.commodity == stolenItem.commodity)
                  (fun i => { i with quantity := newTargetQty })
            let db2 :=
              match db1.inventories.find?
                  (fun i => i.agentId == agentId && i.commodity == stolenItem.commodity) with
              | some existing =>
                updInvs db1 (fun i => i.agentId == agentId && i.commodity == stolenItem.commodity)
                  (fun i => { i with quantity := addDecimals existing.quantity stolenQty })
              | none =>
                addInv db1 ⟨agentId, stolenItem.commodity, stolenQty, false⟩
            (⟨true, "Stole"⟩,
              updAgents db2 (fun a => a.id == agentId)
                (fun a => { a with reputation := agent.reputation - 2, lastActionAt := now }))
          else
            let jailUntil := now + JAIL_DURATION_TICKS * TICK_INTERVAL_MS
            (⟨false, "Caught stealing! Sent to Bazaar Jail."⟩,
              updAgents db (fun a => a.id == agentId)
                (fun a => { a with jailedUntil := some jailUntil,
                                   reputation := agent.reputation - 5,
                                   lastActionAt := now }))

/-- Model of `handleForge`; `quantity` is the caller-resolved `params.quantity || 1`. -/
def handleForge (db : DB) (now : Int) (agentId : Nat) (commodityName : String)
    (quantity : ℚ) : ActionResult × DB :=
  match getAgentOrFail db now agentId with
  | .err e => (e, db)
  | .ok agent =>
    if agent.location != "shady_alley" then
      (⟨false, "Forging only works in the Shady Alley."⟩, db)
    else
      let forgeCost : ℚ := 5 * quantity
      if compareDecimals agent.babelCoins forgeCost < 0 then
        (⟨false, "Insufficient Babel Coins for forging"⟩, db)
      else
        match findCommodity db commodityName with
        | none => (⟨false, "Commodity not found"⟩, db)
        | some commodity =>
          let slug := commodity.name
          let db1 := updAgents db (fun a => a.id == agentId)
            (fun a => { a with babelCoins := subtractDecimals agent.babelCoins forgeCost,
                               lastActionAt := now })
          let db2 :=
            match db1.inventories.find?
                (fun i => i.agentId == agentId && i.commodity == slug) with
            | some existing =>
              updInvs db1 (fun i => i.agentId == agentId && i.commodity == slug)
                (fun i => { i with quantity := addDecimals existing.quantity quantity })
            | none =>
              addInv db1 ⟨agentId, slug, quantity, true⟩
          (⟨true, "Forged"⟩, db2)

/-- Model of `handleOracle` (the generated prophecy text is external decoration and
not part of the state). -/
def handleOracle (db : DB) (now : Int) (agentId : Nat) : ActionResult × DB :=
  match getAgentOrFail db now agentId with
  | .err e => (e, db)
  | .ok agent =>
    if agent.location != "oracles_alcove" then
      (⟨false, "The Oracle speaks only in the Oracles Alcove."⟩, db)
    else if compareDecimals agent.babelCoins ORACLE_COST < 0 then
      (⟨false, "The Oracle demands more Babel Coins"⟩, db)
    else
      (⟨true, "The Oracle speaks"⟩,
        updAgents db (fun a => a.id == agentId)
          (fun a => { a with babelCoins := subtractDecimals agent.babelCoins ORACLE_COST,
                             lastActionAt := now }))

/-- Model of `handleChallenge`.  Oracle data: `agentScore` and `targetScore` are the
`Math.random() * 100 + reputation * 2` duel scores; `wager` is the
caller-resolved `params.wager || 10`. -/
def handleChallenge (db : DB) (now : Int) (agentId : Nat) (targetName : String)
    (wager : ℚ) (agentScore targetScore : ℚ) : ActionResult × DB :=
  match getAgentOrFail db now agentId with
  | .err e => (e, db)
  | .ok agent =>
    match db.agents.find? (fun a => a.name == targetName) with
    | none => (⟨false, "Target agent not found"⟩, db)
    | some target =>
      if target.id == agentId then (⟨false, "You cannot challenge yourself."⟩, db)
      else if compareDecimals agent.babelCoins wager < 0 then
        (⟨false, "Insufficient Babel Coins to wager"⟩, db)
      else if compareDecimals target.babelCoins wager < 0 then
        (⟨false, "Target does not have enough Babel Coins"⟩, db)
      else if agentScore > targetScore then
        let db1 := updAgents db (fun a => a.id == agentId)
          (fun a => { a with babelCoins := addDecimals agent.babelCoins wager,
                             reputation := agent.reputation + 3, lastActionAt := now })
        (⟨true, "Won the duel"⟩,
          updAgents db1 (fun a => a.id == target.id)
            (fun a => { a with babelCoins := subtractDecimals target.babelCoins wager }))
      else
        let db1 := updAgents db (fun a => a.id == agentId)
          (fun a => { a with babelCoins := subtractDecimals agent.babelCoins wager,
                             lastActionAt := now })
        (⟨false, "Lost the duel"⟩,
          updAgents db1 (fun a => a.id == target.id)
            (fun a => { a with babelCoins := addDecimals target.babelCoins wager,
                               reputation := target.reputation + 3 }))

/-! ## Cult handlers (cult actions source file)

`handleLeaveCult`, `handleRitual`/`executeRitual` and `handleDeclareWar`
look the agent up directly (no jail check in the source). -/

/-- Model of `handleLeaveCult`. -/
def handleLeaveCult (db : DB) (now : Int) (agentId : Nat) : ActionResult × DB :=
  match db.agents.find? (fun a => a.id == agentId) with
  | none => (⟨false, "Agent not found"⟩, db)
  | some agent =>
    match agent.cultId with
    | none => (⟨false, "You are not in a cult."⟩, db)
    | some cid =>
      match db.cults.find? (fun c => c.id == cid) with
      | none => (⟨false, "Cult not found"⟩, db)
      | some cult =>
        let membership := db.cultMembers.find?
          (fun m => m.cultId == cult.id && m.agentId == agentId)
        if (membership.map (·.role) == some "founder") && cult.memberCount > 1 then
          (⟨false, "Founders cannot leave while other members remain."⟩, db)
        else
          let db1 := delMembers db (fun m => m.cultId == cult.id && m.agentId == agentId)
          let db2 := updCults db1 (fun c => c.id == cult.id)
            (fun c => { c with memberCount := max 0 (cult.memberCount - 1) })
          let db3 := updAgents db2 (fun a => a.id == agentId)
            (fun a => { a with cultId := none, lastActionAt := now })
          let db4 :=
            if cult.memberCount ≤ 1 then delCults db3 (fun c => c.id == cult.id)
            else db3
          (⟨true, "You have left the cult."⟩, db4)

/-- Model of `executeRitual`: the type-specific effect.  `manipDir` is the
`randomChance(0.5)` direction draw of the market-manipulation case.
Returns only the post-state (the flavour string does not affect state). -/
def executeRitual (db : DB) (cult : Cult) (type : String)
    (target : Option String) (manipDir : Bool) : DB :=
  if type == "market_manipulation" then
    match target with
    | none => db
    | some t =>
      match db.commodities.find? (fun c => c.name == t) with
      | none => db
      | some commodity =>
        let swing := commodity.currentPrice * 0.3
        let direction : ℚ := if manipDir then 1 else -1
        let newPrice := formatDecimal (max (commodity.currentPrice + swing * direction) 1)
        updComms db (fun c => c.name == t) (fun c => { c with currentPrice := newPrice })
  else if type == "excommunication" then
    match target with
    | none => db
    | some t =>
      match db.agents.find? (fun a => a.name == t) with
      | none => db
      | some targetAgent =>
        match targetAgent.cultId with
        | none => db
        | some tcid =>
          let db1 := delMembers db (fun m => m.agentId == targetAgent.id)
          let db2 :=
            match db1.cults.find? (fun c => c.id == tcid) with
            | some targetCult =>
              updCults db1 (fun c => c.id == targetCult.id)
                (fun c => { c with memberCount := max 0 (targetCult.memberCount - 1) })
            | none => db1
          updAgents db2 (fun a => a.id == targetAgent.id)
            (fun a => { a with cultId := none, reputation := targetAgent.reputation - 10 })
  else if type == "summoning" then
    let commodityName := ((cult.name.toLower).replace " " "_") ++ "_relic"
    if (db.commodities.find? (fun c => c.name == commodityName)).isSome then db
    else
      let db1 := addComm db
        ⟨commodityName, cult.name ++ " Relic", 50, 50, 0, 3, 0, false, some cult.id⟩
      match db1.agents.find? (fun a => a.id == cult.founderId) with
      | none => db1
      | some founder =>
        -- `.onConflictDoNothing()` on the (agentId, commodity) key
        if (db1.inventories.find?
            (fun i => i.agentId == founder.id && i.commodity == commodityName)).isSome then db1
        else addInv db1 ⟨founder.id, commodityName, 3, false⟩
  else db

/-- Model of `handleRitual`.  Oracle data: `newId` is the uuid generated for a freshly
inserted ritual row, `manipDir` the market-manipulation direction draw. -/
def handleRitual (db : DB) (now : Int) (agentId : Nat) (type : String)
    (target : Option String) (newId : Nat) (manipDir : Bool) : ActionResult × DB :=
  match db.agents.find? (fun a => a.id == agentId) with
  | none => (⟨false, "Agent not found"⟩, db)
  | some agent =>
    match agent.cultId with
    | none => (⟨false, "You must be in a cult to perform rituals."⟩, db)
    | some cid =>
      if agent.location != "cult_quarter" then
        (⟨false, "Rituals can only be performed in the Cult Quarter."⟩, db)
      else
        match db.cults.find? (fun c => c.id == cid) with
        | none => (⟨false, "Cult not found"⟩, db)
        | some cult =>
          match db.rituals.find? (fun r =>
              r.cultId == cult.id && r.ritualType == type && r.status == "pending") with
          | some existingRitual =>
            if existingRitual.participants.contains agentId then
              (⟨false, "You are already participating in this ritual."⟩, db)
            else
              let newParticipants := existingRitual.participants ++ [agentId]
              if newParticipants.length ≥ existingRitual.requiredParticipants then
                let db1 := updRituals db (fun r => r.id == existingRitual.id)
                  (fun r => { r with participants := newParticipants, status := "completed" })
                let db2 := executeRitual db1 cult type target manipDir
                let db3 := updCults db2 (fun c => c.id == cult.id)
                  (fun c => { c with influence := cult.influence + 10 })
                (⟨true, "Ritual completed!"⟩, db3)
              else
                (⟨true, "Joined ritual. Need more cultists!"⟩,
                  updRituals db (fun r => r.id == existingRitual.id)
                    (fun r => { r with participants := newParticipants }))
          | none =>
            let expiresAt := now + RITUAL_EXPIRY_TICKS * TICK_INTERVAL_MS
            let db1 := addRitual db
              ⟨newId, cult.id, type, target, [agentId], 3, "pending", expiresAt⟩
            (⟨true, "Ritual initiated. Rally your cultists!"⟩,
              updAgents db1 (fun a => a.id == agentId)
                (fun a => { a with lastActionAt := now }))

/-- Model of `handleDeclareWar`. -/
def handleDeclareWar (db : DB) (_now : Int) (agentId : Nat) (targetCultName : String) :
    ActionResult × DB :=
  match db.agents.find? (fun a => a.id == agentId) with
  | none => (⟨false, "Must be in a cult."⟩, db)
  | some agent =>
    match agent.cultId with
    | none => (⟨false, "Must be in a cult."⟩, db)
    | some cid =>
      let membership := db.cultMembers.find?
        (fun m => m.cultId == cid && m.agentId == agentId)
      if membership.map (·.role) != some "founder" then
        (⟨false, "Only founders can declare war."⟩, db)
      else
        match db.cults.find? (fun c => c.id == cid) with
        | none => (⟨false, "Your cult not found."⟩, db)
        | some myCult =>
          match db.cults.find? (fun c => c.name == targetCultName) with
          | none => (⟨false, "Target cult not found."⟩, db)
          | some targetCult =>
            if myCult.isAtWarWith.isSome then
              (⟨false, "Already at war with another cult. Finish that first."⟩, db)
            else
              let warCost : ℚ := 100
              if compareDecimals myCult.treasury warCost < 0 then
                (⟨false, "War declaration costs 100 BC from treasury."⟩, db)
              else
                let db1 := updCults db (fun c => c.id == myCult.id)
                  (fun c => { c with treasury := subtractDecimals myCult.treasury warCost,
                                     isAtWarWith := some targetCult.id })
                (⟨true, "War declared!"⟩,
                  updCults db1 (fun c => c.id == targetCult.id)
                    (fun c => { c with isAtWarWith := some myCult.id }))

/-! ## World tick engine (`src/engine/tick.ts`) -/

instance : Inhabited Cult := ⟨⟨0, "", 0, 0, 0, 0, 0, none⟩⟩

/-- Phase 2, per commodity: mean reversion + noise - decay, floored at
`basePrice * 0.1`, stored via `formatDecimal`.  `u` is the raw
`Math.random()` draw of the noise term. -/
def recalcPrice (c : Commodity) (u : ℚ) : ℚ :=
  let reversion := (c.basePrice - c.currentPrice) * 0.02
  let noise := (u - 0.5) * c.volatility * 0.1 * c.basePrice
  let decay := if c.isPerishable then c.currentPrice * c.decayRate else 0
  formatDecimal (max (c.currentPrice + reversion + noise - decay) (c.basePrice * 0.1))

/-- Event `mercury_retrograde`, per commodity: reflect the price around base,
floored at `basePrice * 0.1`. -/
def mercuryPrice (c : Commodity) : ℚ :=
  formatDecimal (max (c.basePrice - (c.currentPrice - c.basePrice)) (c.basePrice * 0.1))

/-- Event `flash_mob`: add `spike = currentPrice * k` (`k` is the
`randomBetween(0.5, 1.5)` draw) to the price — no floor. -/
def flashPrice (c : Commodity) (k : ℚ) : ℚ :=
  formatDecimal (c.currentPrice + c.currentPrice * k)

/-- Event `fridge_open`, per perishable commodity: lose 30 %, floored at `1`
(not at `basePrice * 0.1`). -/
def fridgePrice (c : Commodity) : ℚ :=
  formatDecimal (max (c.currentPrice - c.currentPrice * 0.3) 1)

/-- Market-manipulation ritual: ±30 % swing, floored at `1`
(not at `basePrice * 0.1`). -/
def manipPrice (c : Commodity) (dir : Bool) : ℚ :=
  let swing := c.currentPrice * 0.3
  let direction : ℚ := if dir then 1 else -1
  formatDecimal (max (c.currentPrice + swing * direction) 1)

/-- Random draws consumed by one `runTick` call. -/
structure TickOracle where
  noiseU : String → ℚ
  trial : Nat → Bool
  shufflePick : List Agent
  mispIdxA : Nat → Nat
  mispIdxB : Nat → Nat
  taxIdx : Nat
  taxRate : ℚ
  flashIdx : Nat
  flashK : ℚ
  beneIdx : Nat
  bonus : ℚ

/-- Event `great_misplacement` pair loop: swap one random inventory entry between
each adjacent pair of the picked agents, skipping pairs that lack stock. -/
def mispLoop (o : TickOracle) (l : List Agent) (k : Nat) (db : DB) : DB :=
  match l with
  | a :: b :: rest =>
    let invA := db.inventories.filter (fun i => i.agentId == a.id)
    let invB := db.inventories.filter (fun i => i.agentId == b.id)
    let db' :=
      if invA.length > 0 && invB.length > 0 then
        let itemA := randomChoice invA (o.mispIdxA k)
        let itemB := randomChoice invB (o.mispIdxB k)
        let d1 := updInvs db (fun i => i.agentId == a.id && i.commodity == itemA.commodity)
          (fun i => { i with agentId := b.id })
        updInvs d1 (fun i => i.agentId == b.id && i.commodity == itemB.commodity)
          (fun i => { i with agentId := a.id })
      else db
    mispLoop o (b :: rest) (k + 1) db'
  | _ => db

/-- Event `great_misplacement` execute.  `o.shufflePick` stands for the random
in-place shuffle + `slice(0, min(3, n))` of the agent list. -/
def greatMisplacementExecute (db : DB) (o : TickOracle) : DB :=
  if db.agents.length < 2 then db
  else mispLoop o o.shufflePick 0 db

/-- Event `mercury_retrograde` execute. -/
def mercuryExecute (db : DB) : DB :=
  { db with commodities := db.commodities.map fun c => { c with currentPrice := mercuryPrice c } }

/-- Event `tax_collector` execute: seize a fraction of every holding of one random
commodity, deleting entries that hit zero (the source loops over the affected
rows, each keyed by `(agentId, commodity)`; one pass is equivalent). -/
def taxExecute (db : DB) (o : TickOracle) : DB :=
  let taxedCommodity := randomChoice db.commodities o.taxIdx
  { db with inventories := db.inventories.filterMap fun inv =>
      if inv.commodity == taxedCommodity.name then
        let taxAmount := inv.quantity * o.taxRate
        let newQty := formatDecimal (inv.quantity - taxAmount) 4
        if newQty ≤ 0 then none else some { inv with quantity := newQty }
      else some inv }

/-- Event `flash_mob` execute. -/
def flashExecute (db : DB) (o : TickOracle) : DB :=
  let target := randomChoice db.commodities o.flashIdx
  updComms db (fun c => c.name == target.name)
    (fun c => { c with currentPrice := flashPrice target o.flashK })

/-- Event `fridge_open` execute. -/
def fridgeExecute (db : DB) : DB :=
  { db with commodities := db.commodities.map fun c =>
      if c.isPerishable then { c with currentPrice := fridgePrice c } else c }

/-- Event `mysterious_benefactor` execute. -/
def benefactorExecute (db : DB) (o : TickOracle) : DB :=
  if db.agents.isEmpty then db
  else
    let lucky := randomChoice db.agents o.beneIdx
    let bonus := formatDecimal o.bonus
    updAgents db (fun a => a.id == lucky.id)
      (fun a => { a with babelCoins := addDecimals lucky.babelCoins bonus })

/-- Event `floor_is_lava` execute. -/
def lavaExecute (db : DB) (now : Int) : DB :=
  let threshold := now - 3 * TICK_INTERVAL_MS
  { db with agents := db.agents.map fun a =>
      if a.lastActionAt < threshold then
        let penalty := formatDecimal (min (a.babelCoins * 0.1) 20)
        { a with babelCoins := subtractDecimals a.babelCoins penalty }
      else a }

/-- Model of `WORLD_EVENT_TYPES`: the fixed ordered list `(type, probability)`. -/
def WORLD_EVENT_TYPES : List (String × ℚ) :=
  [("great_misplacement", 0.08),
   ("mercury_retrograde", 0.06),
   ("tax_collector", 0.10),
   ("flash_mob", 0.10),
   ("fridge_open", 0.08),
   ("mysterious_benefactor", 0.08),
   ("floor_is_lava", 0.06)]

def eventTypeName (i : Nat) : String := (WORLD_EVENT_TYPES.getD i ("", 0)).1

/-- The `execute` of the `i`-th event definition. -/
def executeEvent (i : Nat) (db : DB) (now : Int) (o : TickOracle) : DB :=
  match i with
  | 0 => greatMisplacementExecute db o
  | 1 => mercuryExecute db
  | 2 => taxExecute db o
  | 3 => flashExecute db o
  | 4 => fridgeExecute db
  | 5 => benefactorExecute db o
  | 6 => lavaExecute db now
  | _ => db

/-- Phase 6 loop body: check per event the `randomChance(probability)` trial
in list order; the first success executes and appends one record, then the
loop breaks. -/
def rollEventsFrom (idxs : List Nat) (db : DB) (now : Int) (tickNumber : Int)
    (o : TickOracle) : DB :=
  match idxs with
  | [] => db
  | i :: rest =>
    if o.trial i then
      addEventRec (executeEvent i db now o) ⟨eventTypeName i, tickNumber⟩
    else
      rollEventsFrom rest db now tickNumber o

/-- Phase 6: roll the world event. -/
def rollWorldEvent (db : DB) (now : Int) (tickNumber : Int) (o : TickOracle) : DB :=
  rollEventsFrom (List.range WORLD_EVENT_TYPES.length) db now tickNumber o

/-- Index of the first event definition whose trial succeeds. -/
def firstFired (o : TickOracle) : Option Nat :=
  (List.range WORLD_EVENT_TYPES.length).find? fun i => o.trial i

/-- Read `(tickState?.value as number) || 0`: the stored tick number, 0 when the
row is missing (or holds a non-numeric value, which `|| 0`-coerces). -/
def readTickNumber (db : DB) : Int :=
  match db.worldState.find? (fun r => r.key == "tick_number") with
  | some row => match row.value with
    | .num n => n
    | _ => 0
  | none => 0

/-- Phase 1: read the tick number, add one, persist via `UPDATE` (which
writes nothing when no `tick_number` row exists). -/
def advanceClock (db : DB) (now : Int) : Int × DB :=
  let tickNumber := readTickNumber db + 1
  (tickNumber,
    updWS db (fun r => r.key == "tick_number")
      (fun r => { r with value := .num tickNumber, updatedAt := now }))

/-- First cult of maximal influence: `sort((a,b) => b.influence - a.influence)[0]`
with the stable JS sort, i.e. the first encountered maximum. -/
def topInfluence (l : List Cult) : Cult :=
  l.foldl (fun best c => if c.influence > best.influence then c else best) (l.headD default)

/-- Model of `runTick`: the seven phases in order. -/
def runTick (db : DB) (now : Int) (o : TickOracle) : Int × DB :=
  let p1 := advanceClock db now
  let tickNumber := p1.1
  let db1 := p1.2
  let db2 := { db1 with commodities := db1.commodities.map fun c =>
    { c with currentPrice := recalcPrice c (o.noiseU c.name) } }
  let db3 := updRituals db2 (fun r => r.status == "pending" && r.expiresAt < now)
    (fun r => { r with status := "expired" })
  let allCults := db3.cults
  let db4 := { db3 with cults := db3.cults.map fun cult =>
    { cult with influence := max 0 (cult.influence - 1) } }
  let db5 :=
    if allCults.length > 0 then
      let topCult := topInfluence allCults
      updWS db4 (fun r => r.key == "ruling_cult")
        (fun r => { r with value := .ruling topCult.id topCult.name topCult.influence,
                           updatedAt := now })
    else db4
  let db6 := rollWorldEvent db5 now tickNumber o
  let db7 := { db6 with agents := db6.agents.map fun a =>
    match a.jailedUntil with
    | some t => if t < now then { a with jailedUntil := none } else a
    | none => a }
  (tickNumber, db7)

/-! ## Remaining player-action handlers

The cult actions `found_cult` / `join_cult` / `tithe`, the P2P trade actions
`offer` / `accept_offer` / `list_offers` and the social actions `message` /
`broadcast` complete the action switch.  The `trade_offers` and `messages`
tables are carried as explicitly passed side tables next to `DB`, leaving the
core state type unchanged. -/

def CULT_FOUNDING_COST : ℚ := 500

/-- Row of the `trade_offers` table. -/
structure TradeOffer where
  id : Nat
  fromAgentId : Nat
  toAgentId : Option Nat
  offerCommodity : String
  offerQuantity : ℚ
  wantCommodity : String
  wantQuantity : ℚ
  status : String
  acceptedBy : Option Nat
  location : String
  expiresAt : Int
deriving Repr, DecidableEq

/-- Row of the `messages` table. -/
structure MessageRow where
  fromAgentId : Nat
  toAgentId : Option Nat
  messageType : String
  content : String
  location : String
  tickNumber : Int
deriving Repr, DecidableEq

def addCult (db : DB) (c : Cult) : DB :=
  { db with cults := db.cults ++ [c] }

def addMember (db : DB) (m : CultMember) : DB :=
  { db with cultMembers := db.cultMembers ++ [m] }

/-- Model of `handleFoundCult`; `doctrine` is the caller-resolved
`params.doctrine || generateCultDoctrine(...)` text and `newCultId` the
generated uuid. -/
def handleFoundCult (db : DB) (now : Int) (agentId : Nat) (name : String)
    (doctrine : String) (newCultId : Nat) : ActionResult × DB :=
  match db.agents.find? (fun a => a.id == agentId) with
  | none => (⟨false, "Agent not found"⟩, db)
  | some agent =>
    if agent.location != "cult_quarter" then
      (⟨false, "Cults can only be founded in the Cult Quarter."⟩, db)
    else if agent.cultId.isSome then
      (⟨false, "You are already in a cult. Leave first."⟩, db)
    else if compareDecimals agent.babelCoins CULT_FOUNDING_COST < 0 then
      (⟨false, "Founding a cult costs 500 BC."⟩, db)
    else if (db.cults.find? (fun c => c.name == name)).isSome then
      (⟨false, "A cult with that name already exists"⟩, db)
    else
      let db1 := updAgents db (fun a => a.id == agentId)
        (fun a => { a with babelCoins := subtractDecimals agent.babelCoins CULT_FOUNDING_COST })
      let db2 := addCult db1 ⟨newCultId, name, agentId, 0, 0, 0.10, 1, none⟩
      let db3 := addMember db2 ⟨newCultId, agentId, "founder"⟩
      let db4 := updAgents db3 (fun a => a.id == agentId)
        (fun a => { a with cultId := some newCultId, lastActionAt := now })
      (⟨true, "The cult has been founded! Doctrine: " ++ doctrine⟩, db4)

/-- Model of `handleJoinCult`. -/
def handleJoinCult (db : DB) (now : Int) (agentId : Nat) (cultName : String) :
    ActionResult × DB :=
  match db.agents.find? (fun a => a.id == agentId) with
  | none => (⟨false, "Agent not found"⟩, db)
  | some agent =>
    if agent.cultId.isSome then
      (⟨false, "You are already in a cult. Leave first."⟩, db)
    else
      match db.cults.find? (fun c => c.name == cultName) with
      | none => (⟨false, "Cult not found"⟩, db)
      | some cult =>
        let db1 := addMember db ⟨cult.id, agentId, "member"⟩
        let db2 := updCults db1 (fun c => c.id == cult.id)
          (fun c => { c with memberCount := cult.memberCount + 1 })
        let db3 := updAgents db2 (fun a => a.id == agentId)
          (fun a => { a with cultId := some cult.id, lastActionAt := now })
        (⟨true, "You have joined the cult."⟩, db3)

/-- Model of `handleTithe`. -/
def handleTithe (db : DB) (now : Int) (agentId : Nat) (amount : ℚ) :
    ActionResult × DB :=
  match db.agents.find? (fun a => a.id == agentId) with
  | none => (⟨false, "Agent not found"⟩, db)
  | some agent =>
    match agent.cultId with
    | none => (⟨false, "You are not in a cult."⟩, db)
    | some cid =>
      if compareDecimals agent.babelCoins amount < 0 then
        (⟨false, "Insufficient BC to tithe"⟩, db)
      else
        match db.cults.find? (fun c => c.id == cid) with
        | none => (⟨false, "Cult not found"⟩, db)
        | some cult =>
          let db1 := updAgents db (fun a => a.id == agentId)
            (fun a => { a with babelCoins := subtractDecimals agent.babelCoins amount,
                               reputation := agent.reputation + 1, lastActionAt := now })
          let db2 := updCults db1 (fun c => c.id == cult.id)
            (fun c => { c with treasury := addDecimals cult.treasury amount,
                               influence := cult.influence + ⌊amount / 10⌋ })
          (⟨true, "Tithed to the cult."⟩, db2)

/-- Model of `handleOffer`; `newId` is the generated offer uuid. -/
def handleOffer (db : DB) (offers : List TradeOffer) (now : Int) (agentId : Nat)
    (offerCommodity : String) (offerQuantity : ℚ) (wantCommodity : String)
    (wantQuantity : ℚ) (toAgent? : Option String) (newId : Nat) :
    ActionResult × DB × List TradeOffer :=
  match getAgentOrFail db now agentId with
  | .err e => (e, db, offers)
  | .ok agent =>
    match findCommodity db offerCommodity with
    | none => (⟨false, "Offered commodity not found"⟩, db, offers)
    | some offerComm =>
      match findCommodity db wantCommodity with
      | none => (⟨false, "Wanted commodity not found"⟩, db, offers)
      | some wantComm =>
        match db.inventories.find?
            (fun i => i.agentId == agentId && i.commodity == offerComm.name) with
        | none => (⟨false, "Insufficient offered commodity"⟩, db, offers)
        | some inv =>
          if inv.quantity < offerQuantity then
            (⟨false, "Insufficient offered commodity"⟩, db, offers)
          else
            let mkOffer := fun (targetAgentId : Option Nat) =>
              let expiresAt := now + 10 * 5 * 60 * 1000
              let offers1 := offers ++
                [⟨newId, agentId, targetAgentId, offerComm.name, offerQuantity,
                  wantComm.name, wantQuantity, "open", none, agent.location, expiresAt⟩]
              ((⟨true, "Trade offer created"⟩ : ActionResult),
                updAgents db (fun a => a.id == agentId)
                  (fun a => { a with lastActionAt := now }), offers1)
            match toAgent? with
            | some tname =>
              match db.agents.find? (fun a => a.name == tname) with
              | none => (⟨false, "Target agent not found"⟩, db, offers)
              | some target =>
                if target.id == agentId then
                  (⟨false, "You cannot trade with yourself"⟩, db, offers)
                else mkOffer (some target.id)
            | none => mkOffer none

/-- Execution tail of a successful `handleAcceptOffer`: the four inventory
writes, the offer status flip to accepted and the two lastActionAt stamps. -/
def acceptOfferExec (db : DB) (offers : List TradeOffer) (now : Int)
    (agentId : Nat) (offer : TradeOffer) (acceptorInv offererInv : InvEntry) :
    ActionResult × DB × List TradeOffer :=
  let newOffererQty := subtractDecimals offererInv.quantity offer.offerQuantity
  let db1 :=
    if newOffererQty ≤ 0 then
      delInvs db (fun i =>
        i.agentId == offer.fromAgentId && i.commodity == offer.offerCommodity)
    else
      updInvs db (fun i =>
        i.agentId == offer.fromAgentId && i.commodity == offer.offerCommodity)
        (fun i => { i with quantity := newOffererQty })
  let db2 :=
    match db1.inventories.find? (fun i =>
        i.agentId == agentId && i.commodity == offer.offerCommodity) with
    | some acceptorExisting =>
      updInvs db1 (fun i =>
        i.agentId == agentId && i.commodity == offer.offerCommodity)
        (fun i => { i with
          quantity := addDecimals acceptorExisting.quantity offer.offerQuantity })
    | none =>
      addInv db1 ⟨agentId, offer.offerCommodity, offer.offerQuantity, false⟩
  let newAcceptorQty := subtractDecimals acceptorInv.quantity offer.wantQuantity
  let db3 :=
    if newAcceptorQty ≤ 0 then
      delInvs db2 (fun i =>
        i.agentId == agentId && i.commodity == offer.wantCommodity)
    else
      updInvs db2 (fun i =>
        i.agentId == agentId && i.commodity == offer.wantCommodity)
        (fun i => { i with quantity := newAcceptorQty })
  let db4 :=
    match db3.inventories.find? (fun i =>
        i.agentId == offer.fromAgentId && i.commodity == offer.wantCommodity) with
    | some offererWantExisting =>
      updInvs db3 (fun i =>
        i.agentId == offer.fromAgentId && i.commodity == offer.wantCommodity)
        (fun i => { i with
          quantity := addDecimals offererWantExisting.quantity offer.wantQuantity })
    | none =>
      addInv db3 ⟨offer.fromAgentId, offer.wantCommodity, offer.wantQuantity, false⟩
  let offers1 := updBy (fun t => t.id == offer.id)
    (fun t => { t with status := "accepted", acceptedBy := some agentId }) offers
  let db5 := updAgents db4 (fun a => a.id == agentId)
    (fun a => { a with lastActionAt := now })
  let db6 := updAgents db5 (fun a => a.id == offer.fromAgentId)
    (fun a => { a with lastActionAt := now })
  (⟨true, "Trade completed"⟩, db6, offers1)

/-- Tail of `handleAcceptOffer` after the offer lookup.  The stale-offer
validation failure (offerer no longer holds the offered items) cancels the
offer row *before* returning `success := false`. -/
def acceptOfferCore (db : DB) (offers : List TradeOffer) (now : Int)
    (agentId : Nat) (offer? : Option TradeOffer) :
    ActionResult × DB × List TradeOffer :=
  match offer? with
  | none => (⟨false, "No valid trade offer found"⟩, db, offers)
  | some offer =>
    if offer.toAgentId.isSome && offer.toAgentId != some agentId then
      (⟨false, "This offer is not for you"⟩, db, offers)
    else
      match db.agents.find? (fun a => a.id == offer.fromAgentId) with
      | none => (⟨false, "Offering agent not found"⟩, db, offers)
      | some _fromAgent =>
        match db.inventories.find?
            (fun i => i.agentId == agentId && i.commodity == offer.wantCommodity) with
        | none => (⟨false, "Insufficient wanted commodity"⟩, db, offers)
        | some acceptorInv =>
          if acceptorInv.quantity < offer.wantQuantity then
            (⟨false, "Insufficient wanted commodity"⟩, db, offers)
          else
            match db.inventories.find? (fun i =>
                i.agentId == offer.fromAgentId && i.commodity == offer.offerCommodity) with
            | none =>
              (⟨false, "Offerer no longer has the offered items"⟩, db,
                updBy (fun t => t.id == offer.id)
                  (fun t => { t with status := "cancelled" }) offers)
            | some offererInv =>
              if offererInv.quantity < offer.offerQuantity then
                (⟨false, "Offerer no longer has the offered items"⟩, db,
                  updBy (fun t => t.id == offer.id)
                    (fun t => { t with status := "cancelled" }) offers)
              else
                acceptOfferExec db offers now agentId offer acceptorInv offererInv

/-- Model of `handleAcceptOffer`: resolve the offer by id, by offering agent,
or pick any open offer available to the caller, then run `acceptOfferCore`. -/
def handleAcceptOffer (db : DB) (offers : List TradeOffer) (now : Int)
    (agentId : Nat) (offerId? : Option Nat) (fromAgent? : Option String) :
    ActionResult × DB × List TradeOffer :=
  match getAgentOrFail db now agentId with
  | .err e => (e, db, offers)
  | .ok _agent =>
    match offerId? with
    | some oid =>
      acceptOfferCore db offers now agentId
        (offers.find? (fun t => t.id == oid && t.status == "open" && now < t.expiresAt))
    | none =>
      match fromAgent? with
      | some fname =>
        match db.agents.find? (fun a => a.name == fname) with
        | none => (⟨false, "Offering agent not found by that name"⟩, db, offers)
        | some fromRec =>
          acceptOfferCore db offers now agentId
            (offers.find? (fun t =>
              t.fromAgentId == fromRec.id && t.status == "open" && now < t.expiresAt))
      | none =>
        acceptOfferCore db offers now agentId
          (offers.find? (fun t =>
            t.status == "open" && now < t.expiresAt
              && (t.toAgentId == none || t.toAgentId == some agentId)
              && t.fromAgentId != agentId))

/-- Model of `handleListOffers`: a pure read, always successful. -/
def handleListOffers (db : DB) (offers : List TradeOffer) (now : Int)
    (agentId : Nat) : ActionResult × DB × List TradeOffer :=
  match getAgentOrFail db now agentId with
  | .err e => (e, db, offers)
  | .ok _agent =>
    let available := offers.filter (fun t =>
      t.status == "open" && now < t.expiresAt
        && (t.toAgentId == none || t.toAgentId == some agentId)
        && t.fromAgentId != agentId)
    if available.isEmpty then
      (⟨true, "No trade offers available right now."⟩, db, offers)
    else
      (⟨true, "Found trade offers"⟩, db, offers)

/-- Model of `handleMessage`. -/
def handleMessage (db : DB) (msgs : List MessageRow) (now : Int) (agentId : Nat)
    (toName content : String) : ActionResult × DB × List MessageRow :=
  match getAgentOrFail db now agentId with
  | .err e => (e, db, msgs)
  | .ok agent =>
    if toName.isEmpty || content.isEmpty then
      (⟨false, "Must specify recipient and content"⟩, db, msgs)
    else if content.length > 500 then
      (⟨false, "Message too long. Keep it under 500 characters."⟩, db, msgs)
    else
      match db.agents.find? (fun a => a.name == toName) with
      | none => (⟨false, "Target agent not found in the Bazaar."⟩, db, msgs)
      | some targetAgent =>
        if targetAgent.id == agentId then
          (⟨false, "You cannot message yourself."⟩, db, msgs)
        else
          let currentTick := readTickNumber db
          let msgs1 := msgs ++
            [⟨agentId, some targetAgent.id, "direct", content.trim, agent.location, currentTick⟩]
          (⟨true, "Message sent."⟩,
            updAgents db (fun a => a.id == agentId)
              (fun a => { a with lastActionAt := now }), msgs1)

/-- Model of `handleBroadcast`. -/
def handleBroadcast (db : DB) (msgs : List MessageRow) (now : Int) (agentId : Nat)
    (content : String) : ActionResult × DB × List MessageRow :=
  match getAgentOrFail db now agentId with
  | .err e => (e, db, msgs)
  | .ok agent =>
    if content.isEmpty then
      (⟨false, "Must specify content to broadcast"⟩, db, msgs)
    else if content.length > 500 then
      (⟨false, "Broadcast too long. Keep it under 500 characters."⟩, db, msgs)
    else
      let currentTick := readTickNumber db
      let msgs1 := msgs ++
        [⟨agentId, none, "broadcast", content.trim, agent.location, currentTick⟩]
      (⟨true, "Broadcast sent."⟩,
        updAgents db (fun a => a.id == agentId)
          (fun a => { a with lastActionAt := now }), msgs1)

/-! ## Concrete fixtures used by witnesses and counterexamples -/

/-- A trivial tick oracle: every trial fails, all draws fixed. -/
def oracleNone : TickOracle :=
  ⟨fun _ => 1/2, fun _ => false, [], fun _ => 0, fun _ => 0, 0, 0, 0, 1, 0, 0⟩

/-- Seeded world state holding only the tick counter at 0. -/
def dbTickOnly : DB := ⟨[], [], [], [], [], [], [], [⟨"tick_number", .num 0, 0⟩]⟩

/-- C4 fixture: a 4-member cult whose `summoning` ritual is already
completed by agents 1–3; agent 4 stands in the Cult Quarter. -/
def dbC4 : DB :=
  ⟨[⟨4, "dora", 100, 0, "cult_quarter", some 1, none, 0⟩],
   [], [],
   [⟨1, "Spiral", 1, 0, 0, 1/10, 4, none⟩],
   [⟨1, 4, "member"⟩],
   [⟨1, 1, "summoning", none, [1, 2, 3], 3, "completed", 1000⟩],
   [], []⟩

/-- C5 fixture: cults Alpha and Bravo are mutually at war; Gamma (treasury
150, founder agent 3) is not at war. -/
def dbC5 : DB :=
  ⟨[⟨3, "carol", 100, 0, "grand_atrium", some 3, none, 0⟩],
   [], [],
   [⟨1, "Alpha", 1, 0, 0, 1/10, 1, some 2⟩,
    ⟨2, "Bravo", 2, 0, 0, 1/10, 1, some 1⟩,
    ⟨3, "Gamma", 3, 150, 0, 1/10, 1, none⟩],
   [⟨3, 3, "founder"⟩],
   [], [], []⟩

/-- Is the at-war relation symmetric: every cult referencing `j` is
referenced back by a cult with id `j`? -/
def warSymmetricB (l : List Cult) : Bool :=
  l.all fun c =>
    match c.isAtWarWith with
    | none => true
    | some j => l.any fun c2 => c2.id == j && c2.isAtWarWith == some c.id

/-- C7 fixture: `Lone` (id 1) has a single member `bob`; `Order` (id 2) is
another cult whose ritual will excommunicate him. -/
def dbC7 : DB :=
  ⟨[⟨1, "bob", 100, 0, "grand_atrium", some 1, none, 0⟩],
   [], [],
   [⟨1, "Lone", 1, 0, 0, 1/10, 1, none⟩,
    ⟨2, "Order", 2, 0, 0, 1/10, 3, none⟩],
   [⟨1, 1, "founder"⟩],
   [], [], []⟩

/-- C9 fixture: `ben` (id 2) holds 5 silence and tries to accept offer 1,
in which `ann` (id 1) offers 2 paradox she no longer holds for 1 silence. -/
def dbC9 : DB :=
  ⟨[⟨1, "ann", 100, 0, "grand_atrium", none, none, 0⟩,
    ⟨2, "ben", 100, 0, "grand_atrium", none, none, 0⟩],
   [], [⟨2, "silence", 5, false⟩], [], [], [], [], []⟩

/-- C9 fixture: the single open trade offer of `ann`. -/
def offersC9 : List TradeOffer :=
  [⟨1, 1, none, "paradox", 2, "silence", 1, "open", none, "grand_atrium", 1000⟩]

/-! ## Supporting lemmas -/

theorem roundTo_mono (d : Nat) {x y : ℚ} (h : x ≤ y) : roundTo d x ≤ roundTo d y := by
  unfold roundTo
  have hp : (0 : ℚ) < (10 : ℚ) ^ d := by positivity
  have harg : x * (10 : ℚ) ^ d + 1 / 2 ≤ y * (10 : ℚ) ^ d + 1 / 2 := by
    have := mul_le_mul_of_nonneg_right h (le_of_lt hp)
    linarith
  have hf : (⌊x * (10 : ℚ) ^ d + 1 / 2⌋ : ℚ) ≤ (⌊y * (10 : ℚ) ^ d + 1 / 2⌋ : ℚ) := by
    exact_mod_cast Int.floor_le_floor harg
  exact (div_le_div_iff_of_pos_right hp).mpr hf

theorem roundTo_ge (d : Nat) (x : ℚ) : x - 1 / (2 * (10 : ℚ) ^ d) ≤ roundTo d x := by
  unfold roundTo
  have hp : (0 : ℚ) < (10 : ℚ) ^ d := by positivity
  have hf : x * (10 : ℚ) ^ d - 1 / 2 ≤ (⌊x * (10 : ℚ) ^ d + 1 / 2⌋ : ℚ) := by
    have := Int.sub_one_lt_floor (x * (10 : ℚ) ^ d + 1 / 2)
    linarith
  rw [le_div_iff₀ hp]
  have heq : (x - 1 / (2 * (10 : ℚ) ^ d)) * (10 : ℚ) ^ d = x * (10 : ℚ) ^ d - 1 / 2 := by
    field_simp
    ring
  rw [heq]; exact hf

/-- Model of `roundTo d` is the identity on multiples of `10^-d`. -/
theorem roundTo_eq_self (d : Nat) (n : ℤ) :
    roundTo d ((n : ℚ) / (10 : ℚ) ^ d) = (n : ℚ) / (10 : ℚ) ^ d := by
  unfold roundTo
  have hp : ((10 : ℚ) ^ d) ≠ 0 := by positivity
  have harg : (n : ℚ) / (10 : ℚ) ^ d * (10 : ℚ) ^ d + 1 / 2 = (n : ℚ) + 1 / 2 := by
    field_simp
  rw [harg]
  have hfl : ⌊(n : ℚ) + 1 / 2⌋ = n := by
    rw [add_comm, Int.floor_add_int]
    norm_num
  rw [hfl]

theorem updBy_length (p : α → Bool) (f : α → α) (l : List α) :
    (updBy p f l).length = l.length := by
  simp [updBy]

theorem find?_updBy (l : List α) (p q : α → Bool) (f : α → α)
    (hq : ∀ a, q (f a) = q a) :
    (updBy p f l).find? q = (l.find? q).map (fun a => if p a then f a else a) := by
  induction l with
  | nil => rfl
  | cons a t ih =>
    by_cases hqa : q a = true
    · have h1 : q (if p a then f a else a) = true := by
        by_cases hpa : p a = true <;> simp [hpa, hq, hqa]
      simp [updBy, List.find?_cons, h1, hqa]
    · have hqa' : q a = false := by simpa using hqa
      have h1 : q (if p a then f a else a) = false := by
        by_cases hpa : p a = true <;> simp [hpa, hq, hqa']
      simpa [updBy, List.find?_cons, h1, hqa'] using ih

theorem roundTo_two_one : roundTo 2 (1 : ℚ) = 1 := by
  norm_num [roundTo]

/-! ## C1 — price floor invariant -/

/-- C1 (counterexample): the claim "every operation that writes the
`currentPrice` of a commodity … leaves `currentPrice ≥ basePrice * 0.1`" is false: on a
commodity with `basePrice = 100`, `currentPrice = 11`, the `fridge_open`
world event (which floors at `1`, not at `basePrice * 0.1`) stores
`7.70 < 10 = basePrice * 0.1`. -/
theorem c1_counterexample :
    (fridgeExecute ⟨[], [⟨"ice_cream", "Ice Cream", 100, 11, 0, 1, 1/10, true, none⟩],
        [], [], [], [], [], []⟩).commodities
      = [⟨"ice_cream", "Ice Cream", 100, 77/10, 0, 1, 1/10, true, none⟩]
    ∧ ¬ ((77 : ℚ)/10 ≥ 100 * 0.1) := by
  constructor
  · norm_num [fridgeExecute, fridgePrice, formatDecimal, roundTo, max_def]
  · norm_num

/-- C1 (amended): the per-tick price recalculation and the price-inversion
event floor the price at `basePrice * 0.1` *before* the 2-decimal store, so
the stored price is at least the rounded floor (hence within half a cent of
`basePrice * 0.1`); the price-spike event only raises a non-negative price;
but the perishable-decay event and the market-manipulation ritual floor at
`1` instead, so for them the `basePrice * 0.1` bound only survives when
`basePrice ≤ 10`. -/
theorem c1_amended_floor (c : Commodity) (u k : ℚ) (dir : Bool)
    (hk : 0 ≤ k) (hc : 0 ≤ c.currentPrice) :
    (recalcPrice c u ≥ roundTo 2 (c.basePrice * 0.1)
      ∧ recalcPrice c u ≥ c.basePrice * 0.1 - 1 / 200)
    ∧ (mercuryPrice c ≥ roundTo 2 (c.basePrice * 0.1)
      ∧ mercuryPrice c ≥ c.basePrice * 0.1 - 1 / 200)
    ∧ fridgePrice c ≥ 1
    ∧ manipPrice c dir ≥ 1
    ∧ (c.basePrice ≤ 10 →
        fridgePrice c ≥ c.basePrice * 0.1 ∧ manipPrice c dir ≥ c.basePrice * 0.1)
    ∧ flashPrice c k ≥ roundTo 2 c.currentPrice := by
  have hhalf : ∀ y : ℚ, y - 1 / 200 ≤ roundTo 2 y := by
    intro y
    have := roundTo_ge 2 y
    norm_num at this
    linarith
  have hrecalc : recalcPrice c u ≥ roundTo 2 (c.basePrice * 0.1) := by
    unfold recalcPrice formatDecimal
    exact roundTo_mono 2 (le_max_right _ _)
  have hmerc : mercuryPrice c ≥ roundTo 2 (c.basePrice * 0.1) := by
    unfold mercuryPrice formatDecimal
    exact roundTo_mono 2 (le_max_right _ _)
  have hfridge : fridgePrice c ≥ 1 := by
    unfold fridgePrice formatDecimal
    calc (1 : ℚ) = roundTo 2 1 := roundTo_two_one.symm
    _ ≤ roundTo 2 (max (c.currentPrice - c.currentPrice * 0.3) 1) :=
        roundTo_mono 2 (le_max_right _ _)
  have hmanip : manipPrice c dir ≥ 1 := by
    unfold manipPrice formatDecimal
    calc (1 : ℚ) = roundTo 2 1 := roundTo_two_one.symm
    _ ≤ roundTo 2 (max (c.currentPrice + c.currentPrice * 0.3 * (if dir then 1 else -1)) 1) :=
        roundTo_mono 2 (le_max_right _ _)
  refine ⟨⟨hrecalc, le_trans (by linarith [hhalf (c.basePrice * 0.1)]) hrecalc⟩,
          ⟨hmerc, le_trans (by linarith [hhalf (c.basePrice * 0.1)]) hmerc⟩,
          hfridge, hmanip, ?_, ?_⟩
  · intro hb
    constructor
    · calc c.basePrice * 0.1 ≤ 1 := by linarith
      _ ≤ fridgePrice c := hfridge
    · calc c.basePrice * 0.1 ≤ 1 := by linarith
      _ ≤ manipPrice c dir := hmanip
  · unfold flashPrice formatDecimal
    apply roundTo_mono 2
    nlinarith

/-- C1 witness: `c1_amended_floor` applied to the `paradox` commodity. -/
theorem c1_witness :
    (0 : ℚ) ≤ 1 ∧ (0 : ℚ) ≤ 25 ∧
    (recalcPrice ⟨"paradox", "Paradox", 25, 25, 0, 9/5, 0, false, none⟩ (1/2)
        ≥ (25 : ℚ) * 0.1 - 1 / 200
      ∧ fridgePrice ⟨"paradox", "Paradox", 25, 25, 0, 9/5, 0, false, none⟩ ≥ 1) := by
  refine ⟨by norm_num, by norm_num, ?_, ?_⟩
  · exact (c1_amended_floor ⟨"paradox", "Paradox", 25, 25, 0, 9/5, 0, false, none⟩
      (1/2) 1 true (by norm_num) (by norm_num)).1.2
  · exact (c1_amended_floor ⟨"paradox", "Paradox", 25, 25, 0, 9/5, 0, false, none⟩
      (1/2) 1 true (by norm_num) (by norm_num)).2.2.1

/-! ## C2 — at most one world event per tick -/

theorem mispLoop_worldEvents (o : TickOracle) (l : List Agent) :
    ∀ (k : Nat) (db : DB), (mispLoop o l k db).worldEvents = db.worldEvents := by
  induction l with
  | nil => intro k db; rfl
  | cons a t ih =>
    intro k db
    cases t with
    | nil => rfl
    | cons b rest =>
      simp only [mispLoop]
      rw [ih]
      split <;> rfl

theorem mispLoop_worldState (o : TickOracle) (l : List Agent) :
    ∀ (k : Nat) (db : DB), (mispLoop o l k db).worldState = db.worldState := by
  induction l with
  | nil => intro k db; rfl
  | cons a t ih =>
    intro k db
    cases t with
    | nil => rfl
    | cons b rest =>
      simp only [mispLoop]
      rw [ih]
      split <;> rfl

theorem executeEvent_worldEvents (i : Nat) (db : DB) (now : Int) (o : TickOracle) :
    (executeEvent i db now o).worldEvents = db.worldEvents := by
  match i with
  | 0 =>
    simp only [executeEvent, greatMisplacementExecute]
    split
    · rfl
    · exact mispLoop_worldEvents o o.shufflePick 0 db
  | 1 => rfl
  | 2 => rfl
  | 3 => rfl
  | 4 => rfl
  | 5 =>
    simp only [executeEvent, benefactorExecute]
    split <;> rfl
  | 6 => rfl
  | (n + 7) => rfl

theorem executeEvent_worldState (i : Nat) (db : DB) (now : Int) (o : TickOracle) :
    (executeEvent i db now o).worldState = db.worldState := by
  match i with
  | 0 =>
    simp only [executeEvent, greatMisplacementExecute]
    split
    · rfl
    · exact mispLoop_worldState o o.shufflePick 0 db
  | 1 => rfl
  | 2 => rfl
  | 3 => rfl
  | 4 => rfl
  | 5 =>
    simp only [executeEvent, benefactorExecute]
    split <;> rfl
  | 6 => rfl
  | (n + 7) => rfl

/-- The phase-6 loop is "first successful trial wins": it equals executing the
first fired definition and appending its record, or doing nothing. -/
theorem rollEventsFrom_eq (idxs : List Nat) (db : DB) (now : Int) (tick : Int)
    (o : TickOracle) :
    rollEventsFrom idxs db now tick o =
      match idxs.find? (fun i => o.trial i) with
      | some i => addEventRec (executeEvent i db now o) ⟨eventTypeName i, tick⟩
      | none => db := by
  induction idxs with
  | nil => rfl
  | cons i rest ih =>
    by_cases h : o.trial i = true
    · simp [rollEventsFrom, List.find?_cons, h]
    · have h' : o.trial i = false := by simpa using h
      simp [rollEventsFrom, List.find?_cons, h', ih]

/-- C2: during one tick, the event definitions are tried in fixed list order;
the first success executes its effect and appends exactly one record, the
rest are skipped; if every trial fails nothing happens — so `runTick` appends
at most one World Event Record. -/
theorem c2_one_event_per_tick (db : DB) (now : Int) (tick : Int) (o : TickOracle) :
    (rollWorldEvent db now tick o
        = match firstFired o with
          | some i => addEventRec (executeEvent i db now o) ⟨eventTypeName i, tick⟩
          | none => db)
    ∧ ((runTick db now o).2.worldEvents
        = db.worldEvents ++ (match firstFired o with
            | some i => [⟨eventTypeName i, readTickNumber db + 1⟩]
            | none => []))
    ∧ (runTick db now o).2.worldEvents.length ≤ db.worldEvents.length + 1 := by
  have hroll : ∀ (d : DB) (t : Int),
      (rollWorldEvent d now t o).worldEvents
        = d.worldEvents ++ (match firstFired o with
            | some i => [⟨eventTypeName i, t⟩]
            | none => []) := by
    intro d t
    unfold rollWorldEvent firstFired
    rw [rollEventsFrom_eq]
    cases h : (List.range WORLD_EVENT_TYPES.length).find? (fun i => o.trial i) <;>
      simp [addEventRec, executeEvent_worldEvents]
  have hmain : (runTick db now o).2.worldEvents
      = db.worldEvents ++ (match firstFired o with
          | some i => [⟨eventTypeName i, readTickNumber db + 1⟩]
          | none => []) := by
    simp only [runTick, advanceClock]
    rw [hroll]
    simp [updWS, updRituals]
    split <;> rfl
  refine ⟨?_, hmain, ?_⟩
  · unfold rollWorldEvent firstFired
    rw [rollEventsFrom_eq]
  · rw [hmain]
    cases firstFired o <;> simp

/-! ## C3 — tick counter increment -/

/-- `find?` over a key-guarded world-state update (the update keeps keys). -/
theorem find?_updWS_rows (l : List WSRow) (pk qk : String) (g : WSRow → WSValue) (t : Int) :
    (updBy (fun r => r.key == pk) (fun r => { r with value := g r, updatedAt := t }) l).find?
        (fun r => r.key == qk)
      = (l.find? (fun r => r.key == qk)).map
          (fun a => if a.key == pk then { a with value := g a, updatedAt := t } else a) :=
  find?_updBy l _ _ _ (fun _ => rfl)

theorem rollWorldEvent_worldState (db : DB) (now tick : Int) (o : TickOracle) :
    (rollWorldEvent db now tick o).worldState = db.worldState := by
  unfold rollWorldEvent
  rw [rollEventsFrom_eq]
  cases h : (List.range WORLD_EVENT_TYPES.length).find? (fun i => o.trial i) <;>
    simp [addEventRec, executeEvent_worldState]

/-- C3 (counterexample): with no `tick_number` row in world state the claim
fails — the advance-clock phase computes tick 1 but persists nothing, because
the drizzle `UPDATE` matches no row; afterwards there is still no stored tick
counter equal to `0 + 1`. -/
theorem c3_counterexample :
    ((advanceClock ⟨[], [], [], [], [], [], [], []⟩ 0).1 = 1)
    ∧ ((advanceClock ⟨[], [], [], [], [], [], [], []⟩ 0).2.worldState.find?
        (fun r => r.key == "tick_number") = none) := by
  constructor
  · simp [advanceClock, readTickNumber]
  · simp [advanceClock, updWS, updBy, readTickNumber]

/-- C3 (amended): provided a `tick_number` row exists (the seed creates it),
one `runTick` returns the stored value plus one and persists exactly that:
the tick counter strictly increases by 1 per tick.  When the row is absent
the in-memory tick defaults to `0 + 1` but nothing is persisted
(`c3_counterexample`). -/
theorem c3_amended_tick_increment (db : DB) (now : Int) (o : TickOracle)
    (row : WSRow) (v : Int)
    (hfind : db.worldState.find? (fun r => r.key == "tick_number") = some row)
    (hval : row.value = .num v) :
    (runTick db now o).1 = v + 1
    ∧ (runTick db now o).2.worldState.find? (fun r => r.key == "tick_number")
        = some { row with value := .num (v + 1), updatedAt := now } := by
  have hread : readTickNumber db = v := by
    simp [readTickNumber, hfind, hval]
  have hkey := List.find?_some hfind
  have hkey' : row.key = "tick_number" := by simpa using hkey
  have htick : (updBy (fun r => r.key == "tick_number")
      (fun r => { r with value := .num (readTickNumber db + 1), updatedAt := now })
      db.worldState).find? (fun r => r.key == "tick_number")
      = some { row with value := .num (v + 1), updatedAt := now } := by
    rw [find?_updWS_rows, hfind, hread]
    simp [hkey']
  constructor
  · simp only [runTick, advanceClock, hread]
  · simp only [runTick, advanceClock]
    rw [rollWorldEvent_worldState]
    simp only [updWS, updRituals]
    split
    · rw [find?_updWS_rows, htick]
      simp [hkey']
    · exact htick

/-! ## C4 — ritual quorum state machine -/

theorem executeRitual_rituals (db : DB) (cult : Cult) (type : String)
    (target : Option String) (dir : Bool) :
    (executeRitual db cult type target dir).rituals = db.rituals := by
  unfold executeRitual
  dsimp only [delMembers, updCults, updAgents, updComms, addComm, addInv, updInvs]
  repeat' split
  all_goals rfl

theorem find?_updCults_mc (l : List Cult) (tid cid : Nat) (mc : Int) :
    (updBy (fun c => c.id == tid) (fun c => { c with memberCount := mc }) l).find?
        (fun c => c.id == cid)
      = (l.find? (fun c => c.id == cid)).map
          (fun a => if a.id == tid then { a with memberCount := mc } else a) :=
  find?_updBy l _ _ _ (fun _ => rfl)

theorem executeRitual_cults_influence (db : DB) (cult : Cult) (type : String)
    (target : Option String) (dir : Bool) (cid : Nat) :
    Option.map Cult.influence
        ((executeRitual db cult type target dir).cults.find? (fun c => c.id == cid))
      = Option.map Cult.influence (db.cults.find? (fun c => c.id == cid)) := by
  unfold executeRitual
  simp only [delMembers, updCults, updAgents, updComms, addComm, addInv, updInvs]
  repeat' split
  all_goals try rfl
  all_goals dsimp only
  all_goals rw [find?_updCults_mc]
  all_goals cases db.cults.find? (fun c => c.id == cid) <;> simp
  all_goals try (split <;> rfl)

theorem find?_updCults_infl (l : List Cult) (tid cid : Nat) (iv : Int) :
    (updBy (fun c => c.id == tid) (fun c => { c with influence := iv }) l).find?
        (fun c => c.id == cid)
      = (l.find? (fun c => c.id == cid)).map
          (fun a => if a.id == tid then { a with influence := iv } else a) :=
  find?_updBy l _ _ _ (fun _ => rfl)

/-- C4 (amended): for a pending ritual of a cult, (1) an agent already in the
participant set is rejected with no state change; (2) when the joiner fills
the quorum the ritual alone is marked completed with the extended participant
list, the type-specific effect runs and the influence of the cult is incremented
by 10; (3) when no pending ritual of that type exists — in particular right
after completion — a new join attempt is *not* rejected and *not* a no-op: it
starts a fresh pending ritual containing only the caller, leaving the
completed ritual untouched. -/
theorem c4_amended_ritual_quorum (db : DB) (now : Int) (agentId : Nat)
    (type : String) (target : Option String) (newId : Nat) (dir : Bool)
    (agent : Agent) (cid : Nat) (cult : Cult)
    (hA : db.agents.find? (fun a => a.id == agentId) = some agent)
    (hC : agent.cultId = some cid)
    (hLoc : agent.location = "cult_quarter")
    (hCult : db.cults.find? (fun c => c.id == cid) = some cult) :
    (∀ r, db.rituals.find? (fun x => x.cultId == cult.id && x.ritualType == type
          && x.status == "pending") = some r →
      agentId ∈ r.participants →
      handleRitual db now agentId type target newId dir
        = (⟨false, "You are already participating in this ritual."⟩, db))
    ∧ (∀ r, db.rituals.find? (fun x => x.cultId == cult.id && x.ritualType == type
          && x.status == "pending") = some r →
      agentId ∉ r.participants →
      r.requiredParticipants ≤ r.participants.length + 1 →
      (handleRitual db now agentId type target newId dir).1.success = true
      ∧ (handleRitual db now agentId type target newId dir).2.rituals
          = updBy (fun x => x.id == r.id)
              (fun x => { x with participants := r.participants ++ [agentId],
                                 status := "completed" }) db.rituals
      ∧ Option.map Cult.influence
          ((handleRitual db now agentId type target newId dir).2.cults.find?
            (fun c => c.id == cid))
          = some (cult.influence + 10))
    ∧ (db.rituals.find? (fun x => x.cultId == cult.id && x.ritualType == type
          && x.status == "pending") = none →
      (handleRitual db now agentId type target newId dir).1.success = true
      ∧ (handleRitual db now agentId type target newId dir).2.rituals
          = db.rituals ++ [⟨newId, cult.id, type, target, [agentId], 3, "pending",
              now + RITUAL_EXPIRY_TICKS * TICK_INTERVAL_MS⟩]) := by
  have hcultid : cult.id = cid := by simpa using List.find?_some hCult
  refine ⟨?_, ?_, ?_⟩
  · intro r hR hmem
    simp [handleRitual, hA, hC, hCult, hR, hLoc, hmem]
  · intro r hR hmem hLen
    have hH : handleRitual db now agentId type target newId dir
        = (⟨true, "Ritual completed!"⟩,
            updCults (executeRitual (updRituals db (fun x => x.id == r.id)
                (fun x => { x with participants := r.participants ++ [agentId],
                                   status := "completed" }))
              cult type target dir)
            (fun c => c.id == cult.id)
            (fun c => { c with influence := cult.influence + 10 })) := by
      simp [handleRitual, hA, hC, hCult, hR, hLoc, hmem, hLen]
    refine ⟨by rw [hH], ?_, ?_⟩
    · rw [hH]
      show (executeRitual (updRituals db (fun x => x.id == r.id)
          (fun x => { x with participants := r.participants ++ [agentId],
                             status := "completed" }))
          cult type target dir).rituals = _
      rw [executeRitual_rituals]
      rfl
    · rw [hH]
      simp only [updCults]
      rw [find?_updCults_infl]
      have h2 : Option.map Cult.influence
          ((executeRitual (updRituals db (fun x => x.id == r.id)
              (fun x => { x with participants := r.participants ++ [agentId],
                                 status := "completed" }))
            cult type target dir).cults.find? (fun c => c.id == cid))
          = Option.map Cult.influence (db.cults.find? (fun c => c.id == cid)) :=
        executeRitual_cults_influence _ cult type target dir cid
      rw [hCult] at h2
      cases h3 : (executeRitual (updRituals db (fun x => x.id == r.id)
          (fun x => { x with participants := r.participants ++ [agentId],
                             status := "completed" }))
          cult type target dir).cults.find? (fun c => c.id == cid) with
      | none => rw [h3] at h2; simp at h2
      | some a =>
        have haid : a.id = cid := by simpa using List.find?_some h3
        simp [haid, hcultid]
  · intro hR
    constructor
    · simp [handleRitual, hA, hC, hCult, hR, hLoc]
    · simp [handleRitual, hA, hC, hCult, hR, hLoc, addRitual, updAgents]

/-- C4 (counterexample): after the `summoning` ritual of `dbC4` completed, a
further join attempt by agent 4 is neither rejected nor a no-op — the claimed
"rejected or a no-op" fails: the handler succeeds and creates a second
(pending) ritual row. -/
theorem c4_counterexample :
    (handleRitual dbC4 0 4 "summoning" none 2 true).1.success = true
    ∧ (handleRitual dbC4 0 4 "summoning" none 2 true).2 ≠ dbC4 := by
  have hlen : (handleRitual dbC4 0 4 "summoning" none 2 true).2.rituals.length = 2 := by
    simp [handleRitual, dbC4, List.find?, addRitual, updAgents, updBy]
  constructor
  · simp [handleRitual, dbC4, List.find?, addRitual, updAgents, updBy]
  · intro h
    rw [h] at hlen
    simp [dbC4] at hlen

/-- C4 witness: `c4_amended_ritual_quorum` applied to `dbC4` (case 3: the
completed ritual is not pending, so a fresh pending ritual is created). -/
theorem c4_witness :
    dbC4.agents.find? (fun a => a.id == 4)
        = some ⟨4, "dora", 100, 0, "cult_quarter", some 1, none, 0⟩
    ∧ dbC4.cults.find? (fun c => c.id == 1) = some ⟨1, "Spiral", 1, 0, 0, 1/10, 4, none⟩
    ∧ (handleRitual dbC4 0 4 "summoning" none 2 true).1.success = true := by
  refine ⟨by simp [dbC4, List.find?], by simp [dbC4, List.find?], ?_⟩
  exact ((c4_amended_ritual_quorum dbC4 0 4 "summoning" none 2 true
      ⟨4, "dora", 100, 0, "cult_quarter", some 1, none, 0⟩ 1
      ⟨1, "Spiral", 1, 0, 0, 1/10, 4, none⟩
      (by simp [dbC4, List.find?]) rfl rfl (by simp [dbC4, List.find?])).2.2
    (by simp [dbC4, List.find?])).1

/-! ## C5 — war declaration symmetry -/

theorem find?_updCults_declare (l : List Cult) (tid cid : Nat) (tr : ℚ) (w : Option Nat) :
    (updBy (fun c => c.id == tid)
        (fun c => { c with treasury := tr, isAtWarWith := w }) l).find?
        (fun c => c.id == cid)
      = (l.find? (fun c => c.id == cid)).map
          (fun a => if a.id == tid then { a with treasury := tr, isAtWarWith := w } else a) :=
  find?_updBy l _ _ _ (fun _ => rfl)

theorem find?_updCults_war (l : List Cult) (tid cid : Nat) (w : Option Nat) :
    (updBy (fun c => c.id == tid) (fun c => { c with isAtWarWith := w }) l).find?
        (fun c => c.id == cid)
      = (l.find? (fun c => c.id == cid)).map
          (fun a => if a.id == tid then { a with isAtWarWith := w } else a) :=
  find?_updBy l _ _ _ (fun _ => rfl)

/-- C5 (counterexample): declaring war only checks the war status of the
*attacker*.  In `dbC5` (Alpha ↔ Bravo at war, symmetric), the founder of Gamma
declares war on Bravo: the call succeeds and re-points Bravo at Gamma,
leaving Alpha in a one-sided war — the symmetry claimed for "after every
declare-war operation" is broken. -/
theorem c5_counterexample :
    (handleDeclareWar dbC5 0 3 "Bravo").1.success = true
    ∧ warSymmetricB dbC5.cults = true
    ∧ warSymmetricB (handleDeclareWar dbC5 0 3 "Bravo").2.cults = false := by
  refine ⟨?_, by simp [dbC5, warSymmetricB], ?_⟩
  · simp [handleDeclareWar, dbC5, List.find?, compareDecimals, updCults, updBy]
    norm_num
  · simp [handleDeclareWar, dbC5, List.find?, compareDecimals, updCults, updBy, warSymmetricB]
    norm_num

/-- C5 (amended): a successful declaration makes the two involved cults
reference each other, and an *attacker* already at war is rejected with no
state change; but the code never checks the war status of the *target*, so a
target already at war is silently re-pointed at the attacker and the at-war
relation need not stay symmetric across all factions (`c5_counterexample`). -/
theorem c5_amended_war_symmetry (db : DB) (now : Int) (agentId : Nat)
    (targetName : String) (agent : Agent) (cid : Nat) (myCult targetCult : Cult)
    (hA : db.agents.find? (fun a => a.id == agentId) = some agent)
    (hC : agent.cultId = some cid)
    (hM : (db.cultMembers.find? (fun m => m.cultId == cid && m.agentId == agentId)).map
        (·.role) = some "founder")
    (hMy : db.cults.find? (fun c => c.id == cid) = some myCult)
    (hT : db.cults.find? (fun c => c.name == targetName) = some targetCult)
    (hTid : db.cults.find? (fun c => c.id == targetCult.id) = some targetCult)
    (hNe : targetCult.id ≠ cid) :
    (∀ w, myCult.isAtWarWith = some w →
      handleDeclareWar db now agentId targetName
        = (⟨false, "Already at war with another cult. Finish that first."⟩, db))
    ∧ (myCult.isAtWarWith = none →
      ¬ compareDecimals myCult.treasury 100 < 0 →
      (handleDeclareWar db now agentId targetName).1.success = true
      ∧ ((handleDeclareWar db now agentId targetName).2.cults.find?
          (fun c => c.id == cid)).map (·.isAtWarWith) = some (some targetCult.id)
      ∧ ((handleDeclareWar db now agentId targetName).2.cults.find?
          (fun c => c.id == targetCult.id)).map (·.isAtWarWith) = some (some myCult.id)) := by
  have hMyId : myCult.id = cid := by simpa using List.find?_some hMy
  constructor
  · intro w hw
    simp [handleDeclareWar, hA, hC, hM, hMy, hT, hw]
  · intro hw hTr
    have hH : handleDeclareWar db now agentId targetName
        = (⟨true, "War declared!"⟩,
            updCults (updCults db (fun c => c.id == myCult.id)
                (fun c => { c with treasury := subtractDecimals myCult.treasury 100,
                                   isAtWarWith := some targetCult.id }))
              (fun c => c.id == targetCult.id)
              (fun c => { c with isAtWarWith := some myCult.id })) := by
      simp [handleDeclareWar, hA, hC, hM, hMy, hT, hw, hTr]
    refine ⟨by rw [hH], ?_, ?_⟩
    · rw [hH]
      simp only [updCults]
      rw [find?_updCults_war, find?_updCults_declare, hMy]
      have h2 : myCult.id ≠ targetCult.id := by
        rw [hMyId]; exact fun h => hNe h.symm
      simp [h2]
    · rw [hH]
      simp only [updCults]
      rw [find?_updCults_war, find?_updCults_declare, hTid]
      have h1 : targetCult.id ≠ myCult.id := by
        rw [hMyId]; exact hNe
      simp [h1]

/-- C5 witness: `c5_amended_war_symmetry` applied to `dbC5` — the successful
declaration of Gamma (id 3) against Bravo (id 2) leaves the two referencing
each other. -/
theorem c5_witness :
    dbC5.cults.find? (fun c => c.id == 3) = some ⟨3, "Gamma", 3, 150, 0, 1/10, 1, none⟩
    ∧ ((handleDeclareWar dbC5 0 3 "Bravo").2.cults.find?
        (fun c => c.id == 3)).map (·.isAtWarWith) = some (some 2)
    ∧ ((handleDeclareWar dbC5 0 3 "Bravo").2.cults.find?
        (fun c => c.id == 2)).map (·.isAtWarWith) = some (some 3) := by
  have h := (c5_amended_war_symmetry dbC5 0 3 "Bravo"
      ⟨3, "carol", 100, 0, "grand_atrium", some 3, none, 0⟩ 3
      ⟨3, "Gamma", 3, 150, 0, 1/10, 1, none⟩
      ⟨2, "Bravo", 2, 0, 0, 1/10, 1, some 1⟩
      (by simp [dbC5, List.find?]) rfl (by simp [dbC5, List.find?])
      (by simp [dbC5, List.find?]) (by simp [dbC5, List.find?])
      (by simp [dbC5, List.find?]) (by norm_num)).2
      rfl (by norm_num [compareDecimals])
  exact ⟨by simp [dbC5, List.find?], h.2.1, h.2.2⟩

/-! ## C6 — ledger compare/add consistency -/

/-- C6 (counterexample): for the decimal-string inputs `a = "0.014"`,
`b = "0"` (so `b ≥ 0`), `addDecimals` rounds the sum to 2 decimals —
`0.01` — which compares strictly *less* than `a`: the claimed
`compare(add(a,b), a) >= 0` fails on inputs with more than 2 decimals. -/
theorem c6_counterexample :
    (0 : ℚ) ≥ 0 ∧ compareDecimals (addDecimals (7/500) 0) (7/500) = -1 := by
  constructor
  · norm_num
  · norm_num [compareDecimals, addDecimals, roundTo]

/-- C6 (amended): restricted to the fixed-point contract of the ledger — `a` a
2-decimal value (an integer number of cents) — `compare(add(a,b), a) ≥ 0`
holds for every `b ≥ 0`.  For inputs with more fractional digits the final
2-decimal rounding can drop below `a` (`c6_counterexample`). -/
theorem c6_amended_ledger_monotone (a b : ℚ) (n : ℤ)
    (ha : a = (n : ℚ) / 100) (hb : 0 ≤ b) :
    0 ≤ compareDecimals (addDecimals a b) a := by
  have h2 : roundTo 2 a = a := by
    rw [ha]
    have := roundTo_eq_self 2 n
    norm_num at this ⊢
    exact this
  have hle : a ≤ addDecimals a b := by
    calc a = roundTo 2 a := h2.symm
    _ ≤ roundTo 2 (a + b) := roundTo_mono 2 (by linarith)
  unfold compareDecimals
  split_ifs with hgt hlt
  · norm_num
  · exfalso
    have : (0 : ℚ) ≤ addDecimals a b - a := by linarith
    linarith
  · norm_num

/-- C6 witness: `c6_amended_ledger_monotone` at `a = 5.00`, `b = 1.5`. -/
theorem c6_witness :
    (5 : ℚ) = ((500 : ℤ) : ℚ) / 100 ∧ (0 : ℚ) ≤ 3/2
    ∧ 0 ≤ compareDecimals (addDecimals 5 (3/2)) 5 := by
  refine ⟨by norm_num, by norm_num, ?_⟩
  exact c6_amended_ledger_monotone 5 (3/2) 500 (by norm_num) (by norm_num)

/-! ## C7 — cult deleted when member count reaches zero -/

theorem find?_delBy_self (p : α → Bool) (l : List α) : (delBy p l).find? p = none := by
  rw [List.find?_eq_none]
  intro x hx
  have hmem := List.mem_filter.mp hx
  simp only [Bool.not_eq_true'] at hmem
  simp [hmem.2]

/-- C7 (counterexample): the excommunication ritual effect removes the only
member of `Lone`, drops its member count to `0` — and leaves the cult row in
place, contradicting "if the member count has reached zero then the cult row
no longer exists". -/
theorem c7_counterexample :
    ((executeRitual dbC7 ⟨2, "Order", 2, 0, 0, 1/10, 3, none⟩ "excommunication"
        (some "bob") true).cults.find? (fun c => c.id == 1)).map (fun c => c.memberCount)
      = some 0 := by
  simp [executeRitual, dbC7, List.find?, delMembers, updCults, updAgents, updBy, delBy]

/-- C7 (amended): leaving a cult deletes the row exactly when the member
count reaches zero (the pre-call count was ≤ 1); the excommunication ritual
effect, however, only decrements `memberCount` (floored at 0) and never
deletes the row, so an excommunicated sole member leaves an empty cult row
behind. -/
theorem c7_amended_cult_deletion (db : DB) (now : Int) (agentId : Nat)
    (agent : Agent) (cid : Nat) (cult : Cult)
    (hA : db.agents.find? (fun a => a.id == agentId) = some agent)
    (hC : agent.cultId = some cid)
    (hCult : db.cults.find? (fun c => c.id == cid) = some cult)
    (hOK : (((db.cultMembers.find? (fun m => m.cultId == cult.id && m.agentId == agentId)).map
        (·.role) == some "founder") && cult.memberCount > 1) = false) :
    ((handleLeaveCult db now agentId).1.success = true
      ∧ (cult.memberCount ≤ 1 →
          (handleLeaveCult db now agentId).2.cults.find? (fun c => c.id == cid) = none)
      ∧ (1 < cult.memberCount →
          (handleLeaveCult db now agentId).2.cults.find? (fun c => c.id == cid)
            = some { cult with memberCount := max 0 (cult.memberCount - 1) }))
    ∧ (∀ (ecult : Cult) (t : String) (dir : Bool) (targetAgent : Agent) (tcid : Nat)
        (targetCult : Cult),
      db.agents.find? (fun a => a.name == t) = some targetAgent →
      targetAgent.cultId = some tcid →
      db.cults.find? (fun c => c.id == tcid) = some targetCult →
      (executeRitual db ecult "excommunication" (some t) dir).cults.find?
          (fun c => c.id == tcid)
        = some { targetCult with memberCount := max 0 (targetCult.memberCount - 1) }) := by
  have hcultid : cult.id = cid := by simpa using List.find?_some hCult
  constructor
  · have hH : handleLeaveCult db now agentId
        = (⟨true, "You have left the cult."⟩,
            (if cult.memberCount ≤ 1 then
              delCults (updAgents (updCults (delMembers db
                  (fun m => m.cultId == cult.id && m.agentId == agentId))
                  (fun c => c.id == cult.id)
                  (fun c => { c with memberCount := max 0 (cult.memberCount - 1) }))
                (fun a => a.id == agentId)
                (fun a => { a with cultId := none, lastActionAt := now }))
                (fun c => c.id == cult.id)
            else
              updAgents (updCults (delMembers db
                  (fun m => m.cultId == cult.id && m.agentId == agentId))
                  (fun c => c.id == cult.id)
                  (fun c => { c with memberCount := max 0 (cult.memberCount - 1) }))
                (fun a => a.id == agentId)
                (fun a => { a with cultId := none, lastActionAt := now }))) := by
      simp [handleLeaveCult, hA, hC, hCult, hOK]
    refine ⟨by rw [hH], ?_, ?_⟩
    · intro hle
      rw [hH]
      simp only [if_pos hle, delCults, updAgents, updCults, delMembers]
      rw [hcultid]
      exact find?_delBy_self _ _
    · intro hgt
      rw [hH]
      rw [if_neg (by omega)]
      simp only [updAgents, updCults, delMembers]
      rw [find?_updCults_mc, hCult]
      simp [hcultid]
  · intro ecult t dir targetAgent tcid targetCult hAg hTC hFound
    have hH2 : executeRitual db ecult "excommunication" (some t) dir
        = updAgents (updCults (delMembers db (fun m => m.agentId == targetAgent.id))
            (fun c => c.id == targetCult.id)
            (fun c => { c with memberCount := max 0 (targetCult.memberCount - 1) }))
          (fun a => a.id == targetAgent.id)
          (fun a => { a with cultId := none, reputation := targetAgent.reputation - 10 }) := by
      simp [executeRitual, hAg, hTC, hFound, delMembers]
    rw [hH2]
    simp only [updAgents, updCults, delMembers]
    rw [find?_updCults_mc, hFound]
    have htid : targetCult.id = tcid := by simpa using List.find?_some hFound
    simp [htid]

/-- C7 witness: `c7_amended_cult_deletion` on `dbC7` — `bob` leaving his
one-member cult deletes the row. -/
theorem c7_witness :
    dbC7.agents.find? (fun a => a.id == 1)
        = some ⟨1, "bob", 100, 0, "grand_atrium", some 1, none, 0⟩
    ∧ (handleLeaveCult dbC7 0 1).1.success = true
    ∧ (handleLeaveCult dbC7 0 1).2.cults.find? (fun c => c.id == 1) = none := by
  have h := c7_amended_cult_deletion dbC7 0 1
    ⟨1, "bob", 100, 0, "grand_atrium", some 1, none, 0⟩ 1
    ⟨1, "Lone", 1, 0, 0, 1/10, 1, none⟩
    (by simp [dbC7, List.find?]) rfl (by simp [dbC7, List.find?])
    (by simp [dbC7, List.find?])
  exact ⟨by simp [dbC7, List.find?], h.1.1, h.1.2.1 (by norm_num)⟩

/-! ## C8 — forging merges into the unique (agent, commodity) entry -/

theorem find?_updInvs_qty (l : List InvEntry) (aid : Nat) (slug : String) (nq : ℚ) :
    (updBy (fun i => i.agentId == aid && i.commodity == slug)
        (fun i => { i with quantity := nq }) l).find?
        (fun i => i.agentId == aid && i.commodity == slug)
      = (l.find? (fun i => i.agentId == aid && i.commodity == slug)).map
          (fun a => if a.agentId == aid && a.commodity == slug
              then { a with quantity := nq } else a) :=
  find?_updBy l _ _ _ (fun _ => rfl)

/-- C8: under the unique `(agent, commodity)` key, forging merges into the
existing inventory entry — its quantity grows by the forged amount and its
`isCounterfeit` flag is left exactly as it was (forged units silently inherit
the flag of the entry); a fresh entry with `isCounterfeit = true` is appended only
when the agent holds no entry for that commodity. -/
theorem c8_forge_merge (db : DB) (now : Int) (agentId : Nat)
    (commodityName : String) (quantity : ℚ) (agent : Agent) (commodity : Commodity)
    (hA : db.agents.find? (fun a => a.id == agentId) = some agent)
    (hJ : isJailed agent now = false)
    (hLoc : agent.location = "shady_alley")
    (hTr : ¬ compareDecimals agent.babelCoins (5 * quantity) < 0)
    (hFind : findCommodity db commodityName = some commodity) :
    (∀ e, db.inventories.find?
        (fun i => i.agentId == agentId && i.commodity == commodity.name) = some e →
      (handleForge db now agentId commodityName quantity).2.inventories.find?
          (fun i => i.agentId == agentId && i.commodity == commodity.name)
        = some { e with quantity := addDecimals e.quantity quantity }
      ∧ (handleForge db now agentId commodityName quantity).2.inventories.length
        = db.inventories.length)
    ∧ (db.inventories.find?
        (fun i => i.agentId == agentId && i.commodity == commodity.name) = none →
      (handleForge db now agentId commodityName quantity).2.inventories
        = db.inventories ++ [⟨agentId, commodity.name, quantity, true⟩]) := by
  constructor
  · intro e he
    have hH : handleForge db now agentId commodityName quantity
        = (⟨true, "Forged"⟩,
            updInvs (updAgents db (fun a => a.id == agentId)
                (fun a => { a with
                  babelCoins := subtractDecimals agent.babelCoins (5 * quantity),
                  lastActionAt := now }))
              (fun i => i.agentId == agentId && i.commodity == commodity.name)
              (fun i => { i with quantity := addDecimals e.quantity quantity })) := by
      simp [handleForge, getAgentOrFail, hA, hJ, hLoc, hTr, hFind, updAgents, he]
    obtain ⟨h1, h2⟩ : e.agentId = agentId ∧ e.commodity = commodity.name := by
      simpa using List.find?_some he
    constructor
    · rw [hH]
      simp only [updInvs, updAgents]
      rw [find?_updInvs_qty, he]
      simp [h1, h2]
    · rw [hH]
      simp [updInvs, updAgents, updBy]
  · intro he
    have hH : handleForge db now agentId commodityName quantity
        = (⟨true, "Forged"⟩,
            addInv (updAgents db (fun a => a.id == agentId)
                (fun a => { a with
                  babelCoins := subtractDecimals agent.babelCoins (5 * quantity),
                  lastActionAt := now }))
              ⟨agentId, commodity.name, quantity, true⟩) := by
      simp [handleForge, getAgentOrFail, hA, hJ, hLoc, hTr, hFind, updAgents, he]
    rw [hH]
    simp [addInv, updAgents]

/-- C8 witness: forging one extra `paradox` merges into the existing
*genuine* entry of the agent, whose counterfeit flag stays `false`. -/
theorem c8_witness :
    (⟨[⟨7, "eve", 100, 0, "shady_alley", none, none, 0⟩],
      [⟨"paradox", "Paradox", 25, 25, 0, 9/5, 0, false, none⟩],
      [⟨7, "paradox", 2, false⟩], [], [], [], [], []⟩ : DB).inventories.find?
        (fun i => i.agentId == 7 && i.commodity == "paradox") = some ⟨7, "paradox", 2, false⟩
    ∧ (handleForge ⟨[⟨7, "eve", 100, 0, "shady_alley", none, none, 0⟩],
        [⟨"paradox", "Paradox", 25, 25, 0, 9/5, 0, false, none⟩],
        [⟨7, "paradox", 2, false⟩], [], [], [], [], []⟩ 0 7 "paradox" 1).2.inventories.find?
        (fun i => i.agentId == 7 && i.commodity == "paradox")
      = some ⟨7, "paradox", addDecimals 2 1, false⟩ := by
  refine ⟨by simp [List.find?], ?_⟩
  exact ((c8_forge_merge
      ⟨[⟨7, "eve", 100, 0, "shady_alley", none, none, 0⟩],
        [⟨"paradox", "Paradox", 25, 25, 0, 9/5, 0, false, none⟩],
        [⟨7, "paradox", 2, false⟩], [], [], [], [], []⟩ 0 7 "paradox" 1
      ⟨7, "eve", 100, 0, "shady_alley", none, none, 0⟩
      ⟨"paradox", "Paradox", 25, 25, 0, 9/5, 0, false, none⟩
      (by simp [List.find?]) rfl rfl
      (by norm_num [compareDecimals])
      (by simp [findCommodity, List.find?, (by decide : "paradox".isEmpty = false)])).1
    ⟨7, "paradox", 2, false⟩ (by simp [List.find?])).1

/-! ## C9 — validation failures mutate nothing -/

theorem ite2_db_or_true {α : Type} (c1 c2 : Prop) [Decidable c1] [Decidable c2]
    (m1 m2 : ActionResult) (msg : String) (y db : α) :
    ((if c1 then (m1, db) else if c2 then (m2, db)
      else (⟨true, msg⟩, y) : ActionResult × α).2 = db)
    ∨ ((if c1 then (m1, db) else if c2 then (m2, db)
      else (⟨true, msg⟩, y) : ActionResult × α).1.success = true) := by
  split_ifs
  · left; rfl
  · left; rfl
  · right; rfl

theorem acceptOfferCore_disj (db : DB) (offers : List TradeOffer) (now : Int)
    (agentId : Nat) (offer? : Option TradeOffer) :
    ((acceptOfferCore db offers now agentId offer?).2.1 = db
      ∧ ((acceptOfferCore db offers now agentId offer?).2.2 = offers
        ∨ ∃ oid, (acceptOfferCore db offers now agentId offer?).2.2
            = updBy (fun t => t.id == oid)
                (fun t => { t with status := "cancelled" }) offers))
    ∨ (acceptOfferCore db offers now agentId offer?).1.success = true := by
  unfold acceptOfferCore
  try dsimp only
  repeat' first
    | (left; exact ⟨rfl, Or.inl rfl⟩)
    | (left; exact ⟨rfl, Or.inr ⟨_, rfl⟩⟩)
    | (right; rfl)
    | split
    | (dsimp only)

/-- C9 (corrected): for every player-action handler except `accept_offer`, a
validation failure (`success := false`) returns the state exactly as it was:
unconditionally for `move`, `buy`, `sell`, `forge`, `craft`, `rumor`,
`oracle`, `explore`, `leave_cult`, `ritual`, `declare_war`, `found_cult`,
`join_cult`, `tithe`, `offer`, `message` and `broadcast` (for `steal` and
`challenge`, whose dice-roll branches do mutate, for each enumerated
validation failure), while `list_offers` never writes at all.  The exception
is `accept_offer`: every failure leaves the `DB` tables unchanged, but the
stale-offer failure first cancels the matched trade-offer row (sets
`status := "cancelled"`), so its side table is either unchanged or has
exactly that one status flipped. -/
theorem c9_validation_no_mutation :
    (∀ db now agentId loc, (handleMove db now agentId loc).1.success = false →
        (handleMove db now agentId loc).2 = db)
    ∧ (∀ db now agentId cn q, (handleBuy db now agentId cn q).1.success = false →
        (handleBuy db now agentId cn q).2 = db)
    ∧ (∀ db now agentId cn q, (handleSell db now agentId cn q).1.success = false →
        (handleSell db now agentId cn q).2 = db)
    ∧ (∀ db now agentId cn q, (handleForge db now agentId cn q).1.success = false →
        (handleForge db now agentId cn q).2 = db)
    ∧ (∀ db now agentId p1 p2, (handleCraft db now agentId p1 p2).1.success = false →
        (handleCraft db now agentId p1 p2).2 = db)
    ∧ (∀ db now agentId cn d, (handleRumor db now agentId cn d).1.success = false →
        (handleRumor db now agentId cn d).2 = db)
    ∧ (∀ db now agentId, (handleOracle db now agentId).1.success = false →
        (handleOracle db now agentId).2 = db)
    ∧ (∀ db now agentId roll fi q c,
        (handleExplore db now agentId roll fi q c).1.success = false →
        (handleExplore db now agentId roll fi q c).2 = db)
    ∧ (∀ db now agentId tn sr ii cq (agent : Agent),
        db.agents.find? (fun a => a.id == agentId) = some agent →
        isJailed agent now = false →
        (agent.location ≠ "shady_alley"
          ∨ db.agents.find? (fun a => a.name == tn) = none
          ∨ (∃ t, db.agents.find? (fun a => a.name == tn) = some t ∧ t.id = agentId)
          ∨ (∃ t, db.agents.find? (fun a => a.name == tn) = some t ∧ t.id ≠ agentId
              ∧ (db.inventories.filter (fun i => i.agentId == t.id)).isEmpty)) →
        (handleSteal db now agentId tn sr ii cq).1.success = false
        ∧ (handleSteal db now agentId tn sr ii cq).2 = db)
    ∧ (∀ db now agentId tn w as ts (agent : Agent),
        db.agents.find? (fun a => a.id == agentId) = some agent →
        isJailed agent now = false →
        (db.agents.find? (fun a => a.name == tn) = none
          ∨ (∃ t, db.agents.find? (fun a => a.name == tn) = some t ∧ t.id = agentId)
          ∨ (∃ t, db.agents.find? (fun a => a.name == tn) = some t ∧ t.id ≠ agentId
              ∧ compareDecimals agent.babelCoins w < 0)
          ∨ (∃ t, db.agents.find? (fun a => a.name == tn) = some t ∧ t.id ≠ agentId
              ∧ ¬ compareDecimals agent.babelCoins w < 0
              ∧ compareDecimals t.babelCoins w < 0)) →
        (handleChallenge db now agentId tn w as ts).1.success = false
        ∧ (handleChallenge db now agentId tn w as ts).2 = db)
    ∧ (∀ db now agentId, (handleLeaveCult db now agentId).1.success = false →
        (handleLeaveCult db now agentId).2 = db)
    ∧ (∀ db now agentId ty tgt newId dir,
        (handleRitual db now agentId ty tgt newId dir).1.success = false →
        (handleRitual db now agentId ty tgt newId dir).2 = db)
    ∧ (∀ db now agentId tcn, (handleDeclareWar db now agentId tcn).1.success = false →
        (handleDeclareWar db now agentId tcn).2 = db)
    ∧ (∀ db now agentId nm doc newCultId,
        (handleFoundCult db now agentId nm doc newCultId).1.success = false →
        (handleFoundCult db now agentId nm doc newCultId).2 = db)
    ∧ (∀ db now agentId cn, (handleJoinCult db now agentId cn).1.success = false →
        (handleJoinCult db now agentId cn).2 = db)
    ∧ (∀ db now agentId amt, (handleTithe db now agentId amt).1.success = false →
        (handleTithe db now agentId amt).2 = db)
    ∧ (∀ db offers now agentId oc oq wc wq ta newId,
        (handleOffer db offers now agentId oc oq wc wq ta newId).1.success = false →
        (handleOffer db offers now agentId oc oq wc wq ta newId).2.1 = db
        ∧ (handleOffer db offers now agentId oc oq wc wq ta newId).2.2 = offers)
    ∧ (∀ db offers now agentId,
        (handleListOffers db offers now agentId).2.1 = db
        ∧ (handleListOffers db offers now agentId).2.2 = offers)
    ∧ (∀ db msgs now agentId tn content,
        (handleMessage db msgs now agentId tn content).1.success = false →
        (handleMessage db msgs now agentId tn content).2.1 = db
        ∧ (handleMessage db msgs now agentId tn content).2.2 = msgs)
    ∧ (∀ db msgs now agentId content,
        (handleBroadcast db msgs now agentId content).1.success = false →
        (handleBroadcast db msgs now agentId content).2.1 = db
        ∧ (handleBroadcast db msgs now agentId content).2.2 = msgs)
    ∧ (∀ db offers now agentId oi fa,
        (handleAcceptOffer db offers now agentId oi fa).1.success = false →
        (handleAcceptOffer db offers now agentId oi fa).2.1 = db
        ∧ ((handleAcceptOffer db offers now agentId oi fa).2.2 = offers
          ∨ ∃ oid, (handleAcceptOffer db offers now agentId oi fa).2.2
              = updBy (fun t => t.id == oid)
                  (fun t => { t with status := "cancelled" }) offers)) := by
  refine ⟨?_, ?_, ?_, ?_, ?_, ?_, ?_, ?_, ?_, ?_, ?_, ?_, ?_, ?_, ?_, ?_, ?_, ?_, ?_, ?_, ?_⟩
  · intro db now agentId loc
    have hd : (handleMove db now agentId loc).2 = db ∨ (handleMove db now agentId loc).1.success = true := by
      unfold handleMove
      try dsimp only
      repeat' first
        | (left; rfl)
        | (right; rfl)
        | split
        | (dsimp only)
    intro h
    cases hd with
    | inl h2 => exact h2
    | inr h2 => rw [h2] at h; simp at h
  · intro db now agentId cn q
    have hd : (handleBuy db now agentId cn q).2 = db ∨ (handleBuy db now agentId cn q).1.success = true := by
      unfold handleBuy
      try dsimp only
      repeat' first
        | (left; rfl)
        | (right; rfl)
        | split
        | (dsimp only)
    intro h
    cases hd with
    | inl h2 => exact h2
    | inr h2 => rw [h2] at h; simp at h
  · intro db now agentId cn q
    have hd : (handleSell db now agentId cn q).2 = db ∨ (handleSell db now agentId cn q).1.success = true := by
      unfold handleSell
      try dsimp only
      repeat' first
        | (left; rfl)
        | (right; rfl)
        | split
        | (dsimp only)
    intro h
    cases hd with
    | inl h2 => exact h2
    | inr h2 => rw [h2] at h; simp at h
  · intro db now agentId cn q
    have hd : (handleForge db now agentId cn q).2 = db ∨ (handleForge db now agentId cn q).1.success = true := by
      unfold handleForge
      try dsimp only
      repeat' first
        | (left; rfl)
        | (right; rfl)
        | split
        | (dsimp only)
    intro h
    cases hd with
    | inl h2 => exact h2
    | inr h2 => rw [h2] at h; simp at h
  · intro db now agentId p1 p2
    have hd : (handleCraft db now agentId p1 p2).2 = db ∨ (handleCraft db now agentId p1 p2).1.success = true := by
      unfold handleCraft
      cases getAgentOrFail db now agentId with
      | err e => left; rfl
      | ok agent =>
        dsimp only
        split
        · left; rfl
        · split
          · left; rfl
          · left; rfl
          · exact ite2_db_or_true _ _ _ _ _ _ _
    intro h
    cases hd with
    | inl h2 => exact h2
    | inr h2 => rw [h2] at h; simp at h
  · intro db now agentId cn d
    have hd : (handleRumor db now agentId cn d).2 = db ∨ (handleRumor db now agentId cn d).1.success = true := by
      unfold handleRumor
      try dsimp only
      repeat' first
        | (left; rfl)
        | (right; rfl)
        | split
        | (dsimp only)
    intro h
    cases hd with
    | inl h2 => exact h2
    | inr h2 => rw [h2] at h; simp at h
  · intro db now agentId
    have hd : (handleOracle db now agentId).2 = db ∨ (handleOracle db now agentId).1.success = true := by
      unfold handleOracle
      try dsimp only
      repeat' first
        | (left; rfl)
        | (right; rfl)
        | split
        | (dsimp only)
    intro h
    cases hd with
    | inl h2 => exact h2
    | inr h2 => rw [h2] at h; simp at h
  · intro db now agentId roll fi q c
    have hd : (handleExplore db now agentId roll fi q c).2 = db ∨ (handleExplore db now agentId roll fi q c).1.success = true := by
      unfold handleExplore
      try dsimp only
      repeat' first
        | (left; rfl)
        | (right; rfl)
        | split
        | (dsimp only)
    intro h
    cases hd with
    | inl h2 => exact h2
    | inr h2 => rw [h2] at h; simp at h
  · intro db now agentId tn sr ii cq agent hA hJ hcase
    have hOk : getAgentOrFail db now agentId = .ok agent := by
      simp [getAgentOrFail, hA, hJ]
    rcases hcase with h | h | ⟨t, ht, hid⟩ | ⟨t, ht, hid, hemp⟩
    · constructor <;> (simp [handleSteal, hOk, h]; try (split <;> rfl))
    · constructor <;> (simp [handleSteal, hOk, h]; try (split <;> rfl))
    · constructor <;> (simp [handleSteal, hOk, ht, hid]; try (split <;> rfl))
    · constructor <;> (simp [handleSteal, hOk, ht, hid, hemp]; try (split <;> rfl))
  · intro db now agentId tn w as ts agent hA hJ hcase
    have hOk : getAgentOrFail db now agentId = .ok agent := by
      simp [getAgentOrFail, hA, hJ]
    rcases hcase with h | ⟨t, ht, hid⟩ | ⟨t, ht, hid, htr⟩ | ⟨t, ht, hid, htr, htr2⟩
    · constructor <;> (simp [handleChallenge, hOk, h]; try (split <;> rfl))
    · constructor <;> (simp [handleChallenge, hOk, ht, hid]; try (split <;> rfl))
    · constructor <;> (simp [handleChallenge, hOk, ht, hid, htr]; try (split <;> rfl))
    · constructor <;> (simp [handleChallenge, hOk, ht, hid, htr, htr2]; try (split <;> rfl))
  · intro db now agentId
    have hd : (handleLeaveCult db now agentId).2 = db ∨ (handleLeaveCult db now agentId).1.success = true := by
      unfold handleLeaveCult
      try dsimp only
      repeat' first
        | (left; rfl)
        | (right; rfl)
        | split
        | (dsimp only)
    intro h
    cases hd with
    | inl h2 => exact h2
    | inr h2 => rw [h2] at h; simp at h
  · intro db now agentId ty tgt newId dir
    have hd : (handleRitual db now agentId ty tgt newId dir).2 = db ∨ (handleRitual db now agentId ty tgt newId dir).1.success = true := by
      unfold handleRitual
      try dsimp only
      repeat' first
        | (left; rfl)
        | (right; rfl)
        | split
        | (dsimp only)
    intro h
    cases hd with
    | inl h2 => exact h2
    | inr h2 => rw [h2] at h; simp at h
  · intro db now agentId tcn
    have hd : (handleDeclareWar db now agentId tcn).2 = db ∨ (handleDeclareWar db now agentId tcn).1.success = true := by
      unfold handleDeclareWar
      try dsimp only
      repeat' first
        | (left; rfl)
        | (right; rfl)
        | split
        | (dsimp only)
    intro h
    cases hd with
    | inl h2 => exact h2
    | inr h2 => rw [h2] at h; simp at h
  · intro db now agentId nm doc newCultId
    have hd : (handleFoundCult db now agentId nm doc newCultId).2 = db ∨ (handleFoundCult db now agentId nm doc newCultId).1.success = true := by
      unfold handleFoundCult
      try dsimp only
      repeat' first
        | (left; rfl)
        | (right; rfl)
        | split
        | (dsimp only)
    intro h
    cases hd with
    | inl h2 => exact h2
    | inr h2 => rw [h2] at h; simp at h
  · intro db now agentId cn
    have hd : (handleJoinCult db now agentId cn).2 = db ∨ (handleJoinCult db now agentId cn).1.success = true := by
      unfold handleJoinCult
      try dsimp only
      repeat' first
        | (left; rfl)
        | (right; rfl)
        | split
        | (dsimp only)
    intro h
    cases hd with
    | inl h2 => exact h2
    | inr h2 => rw [h2] at h; simp at h
  · intro db now agentId amt
    have hd : (handleTithe db now agentId amt).2 = db ∨ (handleTithe db now agentId amt).1.success = true := by
      unfold handleTithe
      try dsimp only
      repeat' first
        | (left; rfl)
        | (right; rfl)
        | split
        | (dsimp only)
    intro h
    cases hd with
    | inl h2 => exact h2
    | inr h2 => rw [h2] at h; simp at h
  · intro db offers now agentId oc oq wc wq ta newId
    have hd : ((handleOffer db offers now agentId oc oq wc wq ta newId).2.1 = db
        ∧ (handleOffer db offers now agentId oc oq wc wq ta newId).2.2 = offers)
        ∨ (handleOffer db offers now agentId oc oq wc wq ta newId).1.success = true := by
      unfold handleOffer
      try dsimp only
      repeat' first
        | (left; exact ⟨rfl, rfl⟩)
        | (right; rfl)
        | split
        | (dsimp only)
    intro h
    cases hd with
    | inl h2 => exact h2
    | inr h2 => rw [h2] at h; simp at h
  · intro db offers now agentId
    unfold handleListOffers
    try dsimp only
    repeat' first
      | (exact ⟨rfl, rfl⟩)
      | split
      | (dsimp only)
  · intro db msgs now agentId tn content
    have hd : ((handleMessage db msgs now agentId tn content).2.1 = db
        ∧ (handleMessage db msgs now agentId tn content).2.2 = msgs)
        ∨ (handleMessage db msgs now agentId tn content).1.success = true := by
      unfold handleMessage
      try dsimp only
      repeat' first
        | (left; exact ⟨rfl, rfl⟩)
        | (right; rfl)
        | split
        | (dsimp only)
    intro h
    cases hd with
    | inl h2 => exact h2
    | inr h2 => rw [h2] at h; simp at h
  · intro db msgs now agentId content
    have hd : ((handleBroadcast db msgs now agentId content).2.1 = db
        ∧ (handleBroadcast db msgs now agentId content).2.2 = msgs)
        ∨ (handleBroadcast db msgs now agentId content).1.success = true := by
      unfold handleBroadcast
      try dsimp only
      repeat' first
        | (left; exact ⟨rfl, rfl⟩)
        | (right; rfl)
        | split
        | (dsimp only)
    intro h
    cases hd with
    | inl h2 => exact h2
    | inr h2 => rw [h2] at h; simp at h
  · intro db offers now agentId oi fa
    have hd : ((handleAcceptOffer db offers now agentId oi fa).2.1 = db
        ∧ ((handleAcceptOffer db offers now agentId oi fa).2.2 = offers
          ∨ ∃ oid, (handleAcceptOffer db offers now agentId oi fa).2.2
              = updBy (fun t => t.id == oid)
                  (fun t => { t with status := "cancelled" }) offers))
        ∨ (handleAcceptOffer db offers now agentId oi fa).1.success = true := by
      unfold handleAcceptOffer
      try dsimp only
      repeat' first
        | (exact acceptOfferCore_disj _ _ _ _ _)
        | (left; exact ⟨rfl, Or.inl rfl⟩)
        | (right; rfl)
        | split
        | (dsimp only)
    intro h
    cases hd with
    | inl h2 => exact h2
    | inr h2 => rw [h2] at h; simp at h

/-- C9 witness: a move to an unknown location fails and leaves the database
untouched (`c9_validation_no_mutation`, move case). -/
theorem c9_witness :
    (handleMove ⟨[⟨1, "amy", 100, 0, "grand_atrium", none, none, 0⟩],
        [], [], [], [], [], [], []⟩ 0 1 "nowhere").1.success = false
    ∧ (handleMove ⟨[⟨1, "amy", 100, 0, "grand_atrium", none, none, 0⟩],
        [], [], [], [], [], [], []⟩ 0 1 "nowhere").2
      = ⟨[⟨1, "amy", 100, 0, "grand_atrium", none, none, 0⟩],
        [], [], [], [], [], [], []⟩ := by
  have hs : (handleMove ⟨[⟨1, "amy", 100, 0, "grand_atrium", none, none, 0⟩],
      [], [], [], [], [], [], []⟩ 0 1 "nowhere").1.success = false := by
    simp [handleMove, getAgentOrFail, List.find?, isJailed, validLocations]
  exact ⟨hs, c9_validation_no_mutation.1 _ 0 1 "nowhere" hs⟩

/-- C9 counterexample: accepting offer 1 on `dbC9` fails (the offerer no
longer holds the offered paradox) yet mutates state — the offer row status
flips from open to cancelled before the failure is reported. -/
theorem c9_counterexample :
    (handleAcceptOffer dbC9 offersC9 0 2 (some 1) none).1.success = false
    ∧ ((handleAcceptOffer dbC9 offersC9 0 2 (some 1) none).2.2.find?
        (fun t => t.id == 1)).map TradeOffer.status = some "cancelled"
    ∧ (offersC9.find? (fun t => t.id == 1)).map TradeOffer.status
      = some "open" := by
  exact ⟨rfl, rfl, rfl⟩

/-! ## C10 — jailed agents can take no action -/

/-- C10: every player-action handler routed through `getAgentOrFail` (move,
buy, sell, craft, explore, rumor, steal, forge, oracle, challenge) rejects an
agent whose `jailedUntil` lies in the future before any other validation, and
mutates nothing. -/
theorem c10_jail_blocks_actions (db : DB) (now : Int) (agentId : Nat)
    (agent : Agent) (t : Int)
    (hA : db.agents.find? (fun a => a.id == agentId) = some agent)
    (hjt : agent.jailedUntil = some t) (hnow : now < t) :
    (∀ loc, (handleMove db now agentId loc).1.success = false
      ∧ (handleMove db now agentId loc).2 = db)
    ∧ (∀ cn q, (handleBuy db now agentId cn q).1.success = false
      ∧ (handleBuy db now agentId cn q).2 = db)
    ∧ (∀ cn q, (handleSell db now agentId cn q).1.success = false
      ∧ (handleSell db now agentId cn q).2 = db)
    ∧ (∀ p1 p2, (handleCraft db now agentId p1 p2).1.success = false
      ∧ (handleCraft db now agentId p1 p2).2 = db)
    ∧ (∀ roll fi q c, (handleExplore db now agentId roll fi q c).1.success = false
      ∧ (handleExplore db now agentId roll fi q c).2 = db)
    ∧ (∀ cn d, (handleRumor db now agentId cn d).1.success = false
      ∧ (handleRumor db now agentId cn d).2 = db)
    ∧ (∀ tn sr ii cq, (handleSteal db now agentId tn sr ii cq).1.success = false
      ∧ (handleSteal db now agentId tn sr ii cq).2 = db)
    ∧ (∀ cn q, (handleForge db now agentId cn q).1.success = false
      ∧ (handleForge db now agentId cn q).2 = db)
    ∧ ((handleOracle db now agentId).1.success = false
      ∧ (handleOracle db now agentId).2 = db)
    ∧ (∀ tn w as ts, (handleChallenge db now agentId tn w as ts).1.success = false
      ∧ (handleChallenge db now agentId tn w as ts).2 = db) := by
  have hErr : getAgentOrFail db now agentId
      = .err ⟨false, "You are in Bazaar Jail!"⟩ := by
    simp [getAgentOrFail, hA, isJailed, hjt, hnow]
  refine ⟨?_, ?_, ?_, ?_, ?_, ?_, ?_, ?_, ?_, ?_⟩
  · intro loc; exact ⟨by simp [handleMove, hErr], by simp [handleMove, hErr]⟩
  · intro cn q; exact ⟨by simp [handleBuy, hErr], by simp [handleBuy, hErr]⟩
  · intro cn q; exact ⟨by simp [handleSell, hErr], by simp [handleSell, hErr]⟩
  · intro p1 p2; exact ⟨by simp [handleCraft, hErr], by simp [handleCraft, hErr]⟩
  · intro roll fi q c
    exact ⟨by simp [handleExplore, hErr], by simp [handleExplore, hErr]⟩
  · intro cn d; exact ⟨by simp [handleRumor, hErr], by simp [handleRumor, hErr]⟩
  · intro tn sr ii cq
    exact ⟨by simp [handleSteal, hErr], by simp [handleSteal, hErr]⟩
  · intro cn q; exact ⟨by simp [handleForge, hErr], by simp [handleForge, hErr]⟩
  · exact ⟨by simp [handleOracle, hErr], by simp [handleOracle, hErr]⟩
  · intro tn w as ts
    exact ⟨by simp [handleChallenge, hErr], by simp [handleChallenge, hErr]⟩

/-- C10 witness: a jailed agent cannot buy. -/
theorem c10_witness :
    ((⟨[⟨2, "jay", 100, 0, "grand_atrium", none, some 500, 0⟩],
        [], [], [], [], [], [], []⟩ : DB).agents.find? (fun a => a.id == 2)
      = some ⟨2, "jay", 100, 0, "grand_atrium", none, some 500, 0⟩)
    ∧ (0 : Int) < 500
    ∧ (handleBuy ⟨[⟨2, "jay", 100, 0, "grand_atrium", none, some 500, 0⟩],
        [], [], [], [], [], [], []⟩ 0 2 "paradox" 1).1.success = false := by
  refine ⟨by simp [List.find?], by norm_num, ?_⟩
  exact ((c10_jail_blocks_actions _ 0 2
      ⟨2, "jay", 100, 0, "grand_atrium", none, some 500, 0⟩ 500
      (by simp [List.find?]) rfl (by norm_num)).2.1 "paradox" 1).1

/-- C3 witness: `c3_amended_tick_increment` on the seeded world state —
one tick moves the stored counter from 0 to 1. -/
theorem c3_witness :
    dbTickOnly.worldState.find? (fun r => r.key == "tick_number")
        = some ⟨"tick_number", .num 0, 0⟩
    ∧ (runTick dbTickOnly 7 oracleNone).1 = 0 + 1
    ∧ (runTick dbTickOnly 7 oracleNone).2.worldState.find? (fun r => r.key == "tick_number")
        = some ⟨"tick_number", .num (0 + 1), 7⟩ := by
  have h := c3_amended_tick_increment dbTickOnly 7 oracleNone
    ⟨"tick_number", .num 0, 0⟩ 0 (by simp [dbTickOnly, List.find?]) rfl
  exact ⟨by simp [dbTickOnly, List.find?], h.1, h.2⟩
